import Mathlib

/-!
# Substitute reconciliation of the EffectiveHPA controller

A shallow embedding of `pkg/controller/ehpa/substitute.go`
(`ReconcileSubstitute`, `CreateSubstitute`, `NewSubstituteObject`,
`UpdateSubstituteIfNeed`) together with theorems about one reconcile pass.

The collaborators of the controller (the client of the object store, the
owner-reference helper, the event recorder and the logger) are fields of the
controller value; every function threads a `Pass` holding the store state, the
state of the diagnostic sinks and the chronological trace of collaborator
calls.
-/

set_option autoImplicit false

namespace Ehpa

/-! ## Data model -/

/-- Reference to the scaled workload (`CrossVersionObjectReference`). -/
structure CrossVersionObjectReference where
  Kind : String
  Name : String
  APIVersion : String
deriving DecidableEq, Repr

/-- One entry of `ObjectMeta.OwnerReferences`. -/
structure OwnerReference where
  APIVersion : String
  Kind : String
  Name : String
  UID : String
  Controller : Bool
  BlockOwnerDeletion : Bool
deriving DecidableEq, Repr

/-- A Go `map[string]string`, kept as an association list; a map literal is
the sequence of its assignments. -/
abbrev Labels := List (String × String)

/-- Map assignment `m[k] = v`. -/
def labelSet (m : Labels) (k v : String) : Labels :=
  (k, v) :: m.filter (fun e => e.1 != k)

/-- Map lookup `m[k]`. -/
def labelGet (m : Labels) (k : String) : Option String :=
  m.lookup k

/-- The fields of `metav1.ObjectMeta` the controller reads or writes. -/
structure ObjectMeta where
  Name : String := ""
  Namespace : String := ""
  UID : String := ""
  Labels : Labels := []
  OwnerReferences : List OwnerReference := []
deriving DecidableEq, Repr

/-- Spec of an EffectiveHorizontalPodAutoscaler, restricted to the field used here. -/
structure EffectiveHorizontalPodAutoscalerSpec where
  ScaleTargetRef : CrossVersionObjectReference
deriving DecidableEq, Repr

/-- The owner resource. -/
structure EffectiveHorizontalPodAutoscaler extends ObjectMeta where
  Spec : EffectiveHorizontalPodAutoscalerSpec
deriving DecidableEq, Repr

/-- Spec of a Substitute. -/
structure SubstituteSpec where
  SubstituteTargetRef : CrossVersionObjectReference
  Replicas : Int
deriving DecidableEq, Repr

/-- The derived resource. -/
structure Substitute extends ObjectMeta where
  Spec : SubstituteSpec
deriving DecidableEq, Repr

/-- Spec of `autoscaling/v1.Scale`. -/
structure ScaleSpec where
  Replicas : Int
deriving DecidableEq, Repr

/-- The scale object supplied by the caller. -/
structure Scale where
  Spec : ScaleSpec
deriving DecidableEq, Repr

/-- A Go `error` value as far as the controller observes it: what
`errors.IsNotFound` reports for it and what `err.Error()` yields. -/
structure Err where
  IsNotFound : Bool
  Error : String
deriving DecidableEq, Repr

/-- Constants of package `known` used by the controller; their values are not
part of this file, so they are parameters. -/
structure Known where
  EffectiveHorizontalPodAutoscalerManagedBy : String
  EffectiveHorizontalPodAutoscalerUidLabel : String
deriving DecidableEq, Repr

/-- The list options of controller-runtime that occur in a `List` call. -/
inductive ListOption where
  | MatchingLabels (m : Labels)
  | InNamespace (ns : String)
deriving DecidableEq, Repr

/-- Arguments of `Recorder.Event(object, eventtype, reason, message)`. -/
structure EventRec where
  object : EffectiveHorizontalPodAutoscaler
  eventtype : String
  reason : String
  message : String
deriving DecidableEq, Repr

/-- A value logged under a key. -/
inductive LogValue where
  | sub (s : Option Substitute)
  | kobj (ns name : String)
  | ref (r : CrossVersionObjectReference)
deriving DecidableEq, Repr

/-- One call on the logger: `Log.Error(err, msg, kv...)` or
`Log.V(level).Info(msg, kv...)` (`Log.Info` is level 0). -/
inductive LogRec where
  | error (err : Err) (msg : String) (kv : List (String × LogValue))
  | info (level : Nat) (msg : String) (kv : List (String × LogValue))
deriving DecidableEq, Repr

/-- One collaborator call, with its arguments. -/
inductive Call where
  | list (opts : List ListOption)
  | setControllerReference (owner : EffectiveHorizontalPodAutoscaler) (obj : Substitute)
  | create (obj : Substitute)
  | update (obj : Substitute)
  | event (e : EventRec)
  | log (l : LogRec)
deriving DecidableEq, Repr

/-- The store client (`client.Client`): each operation reads and updates the
store state `σ`. `Create` and `Update` report an error or `none`; what the
server writes back into the object passed (resource version, timestamps) is
outside the data model. -/
structure Client (σ : Type) where
  Create : Substitute → σ → Option Err × σ
  Update : Substitute → σ → Option Err × σ
  List : List ListOption → σ → Except Err (List Substitute) × σ

/-- The controller with its collaborators. `SetControllerReference` stands for
`controllerutil.SetControllerReference(owner, obj, c.Scheme)`: it fails or
yields the owner references of the object. `Recorder` and `Log` return nothing
to the caller and act on the sink state `τ` only. -/
structure EffectiveHPAController (σ τ : Type) where
  Client : Client σ
  SetControllerReference :
    EffectiveHorizontalPodAutoscaler → Substitute → Except Err (List OwnerReference)
  Recorder : EventRec → τ → τ
  Log : LogRec → τ → τ

/-- State threaded through one reconcile pass. -/
structure Pass (σ τ : Type) where
  store : σ
  sink : τ
  trace : List Call

variable {σ τ : Type}

/-! ## Collaborator calls -/

/-- Call `c.Client.List`. -/
def clientList (c : EffectiveHPAController σ τ) (opts : List ListOption) (p : Pass σ τ) :
    Except Err (List Substitute) × Pass σ τ :=
  let r := c.Client.List opts p.store
  (r.1, { p with store := r.2, trace := p.trace ++ [Call.list opts] })

/-- Call `c.Client.Create`. -/
def clientCreate (c : EffectiveHPAController σ τ) (obj : Substitute) (p : Pass σ τ) :
    Option Err × Pass σ τ :=
  let r := c.Client.Create obj p.store
  (r.1, { p with store := r.2, trace := p.trace ++ [Call.create obj] })

/-- Call `c.Update`. -/
def clientUpdate (c : EffectiveHPAController σ τ) (obj : Substitute) (p : Pass σ τ) :
    Option Err × Pass σ τ :=
  let r := c.Client.Update obj p.store
  (r.1, { p with store := r.2, trace := p.trace ++ [Call.update obj] })

/-- Call `controllerutil.SetControllerReference`. -/
def setControllerReference (c : EffectiveHPAController σ τ)
    (owner : EffectiveHorizontalPodAutoscaler) (obj : Substitute) (p : Pass σ τ) :
    Except Err (List OwnerReference) × Pass σ τ :=
  (c.SetControllerReference owner obj,
    { p with trace := p.trace ++ [Call.setControllerReference owner obj] })

/-- Call `c.Recorder.Event`. -/
def recorderEvent (c : EffectiveHPAController σ τ) (e : EventRec) (p : Pass σ τ) : Pass σ τ :=
  { p with sink := c.Recorder e p.sink, trace := p.trace ++ [Call.event e] }

/-- Call on `c.Log`. -/
def logCall (c : EffectiveHPAController σ τ) (l : LogRec) (p : Pass σ τ) : Pass σ τ :=
  { p with sink := c.Log l p.sink, trace := p.trace ++ [Call.log l] }

/-- The constant `v1.EventTypeNormal`. -/
def EventTypeNormal : String := "Normal"

/-! ## The controller functions -/

/-- The struct literal of `NewSubstituteObject` (lines 64-80): the Substitute
before its controller reference is set. -/
def substituteLiteral (k : Known) (ehpa : EffectiveHorizontalPodAutoscaler) (scale : Scale) :
    Substitute :=
  let name := "ehpa-" ++ ehpa.Name
  { Namespace := ehpa.Namespace
    Name := name
    Labels :=
      labelSet
        (labelSet
          (labelSet
            (labelSet [] "app.kubernetes.io/name" name)
            "app.kubernetes.io/part-of" ehpa.Name)
          "app.kubernetes.io/managed-by" k.EffectiveHorizontalPodAutoscalerManagedBy)
        k.EffectiveHorizontalPodAutoscalerUidLabel ehpa.UID
    Spec :=
      { SubstituteTargetRef := ehpa.Spec.ScaleTargetRef
        Replicas := scale.Spec.Replicas } }

/-- Embedding of `NewSubstituteObject`: build the Substitute of `ehpa` and set its
controller reference. -/
def NewSubstituteObject (c : EffectiveHPAController σ τ) (k : Known)
    (ehpa : EffectiveHorizontalPodAutoscaler) (scale : Scale) (p : Pass σ τ) :
    Except Err Substitute × Pass σ τ :=
  let substitute := substituteLiteral k ehpa scale
  let r := setControllerReference c ehpa substitute p
  match r.1 with
  | .error err => (.error err, r.2)
  | .ok refs => (.ok { substitute with OwnerReferences := refs }, r.2)

/-- Embedding of `CreateSubstitute`: build the object and create it in the store. -/
def CreateSubstitute (c : EffectiveHPAController σ τ) (k : Known)
    (ehpa : EffectiveHorizontalPodAutoscaler) (scale : Scale) (p : Pass σ τ) :
    Except Err Substitute × Pass σ τ :=
  let r := NewSubstituteObject c k ehpa scale p
  match r.1 with
  | .error err =>
    let p1 := recorderEvent c
      ⟨ehpa, EventTypeNormal, "FailedCreateSubstituteObject", err.Error⟩ r.2
    let p2 := logCall c
      (.error err "Failed to create object" [("Substitute", .sub none)]) p1
    (.error err, p2)
  | .ok substitute =>
    let r1 := clientCreate c substitute r.2
    match r1.1 with
    | some err =>
      let p1 := recorderEvent c
        ⟨ehpa, EventTypeNormal, "FailedCreateSubstitute", err.Error⟩ r1.2
      let p2 := logCall c
        (.error err "Failed to create" [("Substitute", .sub (some substitute))]) p1
      (.error err, p2)
    | none =>
      let p1 := logCall c
        (.info 0 "Create Substitute successfully" [("Substitute", .sub (some substitute))]) r1.2
      let p2 := recorderEvent c
        ⟨ehpa, EventTypeNormal, "SubstituteCreated", "Create Substitute successfully"⟩ p1
      (.ok substitute, p2)

/-- Embedding of `UpdateSubstituteIfNeed`: resynchronise the target reference of the
existing Substitute when it differs from the owner's. -/
def UpdateSubstituteIfNeed (c : EffectiveHPAController σ τ)
    (ehpa : EffectiveHorizontalPodAutoscaler) (substituteExist : Substitute)
    (_scale : Scale) (p : Pass σ τ) : Except Err Substitute × Pass σ τ :=
  if ¬ (substituteExist.Spec.SubstituteTargetRef = ehpa.Spec.ScaleTargetRef) then
    let p0 := logCall c
      (.info 4
        "Substitute is unsynced according to EffectiveHorizontalPodAutoscaler, should be updated"
        [("currentTarget", .ref substituteExist.Spec.SubstituteTargetRef),
         ("expectTarget", .ref ehpa.Spec.ScaleTargetRef)]) p
    let substituteExist : Substitute :=
      { substituteExist with
        Spec := { substituteExist.Spec with SubstituteTargetRef := ehpa.Spec.ScaleTargetRef } }
    let r := clientUpdate c substituteExist p0
    match r.1 with
    | some err =>
      let p1 := recorderEvent c
        ⟨ehpa, EventTypeNormal, "FailedUpdateSubstitute", err.Error⟩ r.2
      let p2 := logCall c
        (.error err "Failed to update" [("Substitute", .sub (some substituteExist))]) p1
      (.error err, p2)
    | none =>
      let p1 := logCall c
        (.info 0 "Update Substitute successful"
          [("Substitute", .kobj substituteExist.Namespace substituteExist.Name)]) r.2
      (.ok substituteExist, p1)
  else
    (.ok substituteExist, p)

/-- Embedding of `ReconcileSubstitute`: find the Substitute of `ehpa` by its UID label, then
create it when absent or update it when needed. -/
def ReconcileSubstitute (c : EffectiveHPAController σ τ) (k : Known)
    (ehpa : EffectiveHorizontalPodAutoscaler) (scale : Scale) (p : Pass σ τ) :
    Except Err Substitute × Pass σ τ :=
  let opts : List ListOption :=
    [ListOption.MatchingLabels
      (labelSet [] k.EffectiveHorizontalPodAutoscalerUidLabel ehpa.UID)]
  let r := clientList c opts p
  match r.1 with
  | .error err =>
    if err.IsNotFound then
      CreateSubstitute c k ehpa scale r.2
    else
      let p1 := recorderEvent c
        ⟨ehpa, EventTypeNormal, "FailedGetSubstitute", err.Error⟩ r.2
      let p2 := logCall c
        (.error err "Failed to get Substitute" [("ehpa", .kobj ehpa.Namespace ehpa.Name)]) p1
      (.error err, p2)
  | .ok [] => CreateSubstitute c k ehpa scale r.2
  | .ok (first :: _) => UpdateSubstituteIfNeed c ehpa first scale r.2

/-! ## An in-memory object store -/

/-- Whether a stored Substitute satisfies one list option. -/
def matchesOption (s : Substitute) (o : ListOption) : Bool :=
  match o with
  | .MatchingLabels m => m.all (fun e => labelGet s.Labels e.1 == some e.2)
  | .InNamespace ns => s.Namespace == ns

/-- Whether two objects have the same store key (namespace and name). -/
def sameKey (a b : Substitute) : Bool :=
  a.Namespace == b.Namespace && a.Name == b.Name

/-- The in-memory store over which idempotence is stated (the object store
itself is an external collaborator): the state is the list of stored
Substitutes, and `List` returns, in stored order, those that satisfy every
list option; without a namespace option it covers all namespaces. -/
def storeList (opts : List ListOption) (st : List Substitute) :
    Except Err (List Substitute) × List Substitute :=
  (.ok (st.filter (fun s => opts.all (matchesOption s))), st)

/-- In-memory `Create`: inserts the object, unless an object with the same key
is stored already. -/
def storeCreate (obj : Substitute) (st : List Substitute) : Option Err × List Substitute :=
  if st.any (sameKey obj) then (some ⟨false, "already exists"⟩, st)
  else (none, st ++ [obj])

/-- In-memory `Update`: replaces the stored object with the same key in place,
and reports not-found when there is none. -/
def storeUpdate (obj : Substitute) (st : List Substitute) : Option Err × List Substitute :=
  if st.any (sameKey obj) then (none, st.map (fun s => if sameKey obj s then obj else s))
  else (some ⟨true, "not found"⟩, st)

/-- The client of the in-memory store. -/
def storeClient : Client (List Substitute) where
  Create := storeCreate
  Update := storeUpdate
  List := storeList

/-- A controller running against the in-memory store. -/
def storeController
    (setRef : EffectiveHorizontalPodAutoscaler → Substitute → Except Err (List OwnerReference))
    (recorder : EventRec → τ → τ) (log : LogRec → τ → τ) :
    EffectiveHPAController (List Substitute) τ where
  Client := storeClient
  SetControllerReference := setRef
  Recorder := recorder
  Log := log

/-! ## Reading a trace -/

/-- Whether a call is a `Create`. -/
def Call.isCreate : Call → Bool
  | .create _ => true
  | _ => false

/-- Whether a call is an `Update`. -/
def Call.isUpdate : Call → Bool
  | .update _ => true
  | _ => false

/-- Whether a call is a store call (`List`, `Create` or `Update`). -/
def Call.isStore : Call → Bool
  | .list _ => true
  | .create _ => true
  | .update _ => true
  | _ => false

/-- Whether a call is `Recorder.Event`. -/
def Call.isEvent : Call → Bool
  | .event _ => true
  | _ => false

/-- Whether a call is a call on the logger. -/
def Call.isLog : Call → Bool
  | .log _ => true
  | _ => false

/-- Whether a call is `Log.Error`. -/
def Call.isLogError : Call → Bool
  | .log (.error _ _ _) => true
  | _ => false

/-- The kind of a collaborator call, without its arguments. -/
inductive Kind where
  | list
  | setControllerReference
  | create
  | update
  | event
  | logError
  | logInfo
deriving DecidableEq, Repr

/-- The kind of a call. -/
def Call.kind : Call → Kind
  | .list _ => .list
  | .setControllerReference _ _ => .setControllerReference
  | .create _ => .create
  | .update _ => .update
  | .event _ => .event
  | .log (.error _ _ _) => .logError
  | .log (.info _ _ _) => .logInfo

/-- Whether a kind is a store call. -/
def Kind.isStore : Kind → Bool
  | .list => true
  | .create => true
  | .update => true
  | _ => false

/-- The fallible collaborator calls of a pass. -/
inductive FailurePoint where
  | list
  | reference
  | create
  | update
deriving DecidableEq, Repr

/-- The kind of call that fails at a failure point. -/
def FailurePoint.kind : FailurePoint → Kind
  | .list => .list
  | .reference => .setControllerReference
  | .create => .create
  | .update => .update

/-- The kinds of the calls of a pass that fails at a given point, in order. -/
def failureTrace : FailurePoint → List Kind
  | .list => [.list, .event, .logError]
  | .reference => [.list, .setControllerReference, .event, .logError]
  | .create => [.list, .setControllerReference, .create, .event, .logError]
  | .update => [.list, .logInfo, .update, .event, .logError]

/-- The list options issued by `ReconcileSubstitute` for an owner. -/
def uidOptions (k : Known) (ehpa : EffectiveHorizontalPodAutoscaler) : List ListOption :=
  [ListOption.MatchingLabels (labelSet [] k.EffectiveHorizontalPodAutoscalerUidLabel ehpa.UID)]

/-- A pass that starts with an empty trace. -/
def start (st : σ) (sk : τ) : Pass σ τ := ⟨st, sk, []⟩

/-! ## Vocabulary of the statements -/

/-- Whether the lookup found nothing: an empty list or a not-found error. -/
def absent (r : Except Err (List Substitute)) : Bool :=
  match r with
  | .ok [] => true
  | .ok (_ :: _) => false
  | .error err => err.IsNotFound

/-- The object handed to `Create`: the literal with its owner references set. -/
def ownedSubstitute (k : Known) (ehpa : EffectiveHorizontalPodAutoscaler) (scale : Scale)
    (refs : List OwnerReference) : Substitute :=
  { substituteLiteral k ehpa scale with OwnerReferences := refs }

/-- The object handed to `Update`: the existing one with the owner's target. -/
def retargeted (ehpa : EffectiveHorizontalPodAutoscaler) (e : Substitute) : Substitute :=
  { e with Spec := { e.Spec with SubstituteTargetRef := ehpa.Spec.ScaleTargetRef } }

/-- The pass state right before the `Update` call of a diverged Substitute. -/
def beforeUpdate (c : EffectiveHPAController σ τ)
    (ehpa : EffectiveHorizontalPodAutoscaler) (e : Substitute) (p : Pass σ τ) : Pass σ τ :=
  logCall c
    (.info 4
      "Substitute is unsynced according to EffectiveHorizontalPodAutoscaler, should be updated"
      [("currentTarget", .ref e.Spec.SubstituteTargetRef),
       ("expectTarget", .ref ehpa.Spec.ScaleTargetRef)]) p

/-- The call at failure point `pt` of the pass of `ehpa` from store state `st`
is reached and fails with `e`: `List` fails with an error that is not
not-found; or the lookup finds nothing and `SetControllerReference` fails; or
it finds nothing, the reference is set and `Create` fails; or the first item
found has another target and `Update` fails. -/
def failsAt (c : EffectiveHPAController σ τ) (k : Known)
    (ehpa : EffectiveHorizontalPodAutoscaler) (scale : Scale) (st : σ) :
    FailurePoint → Err → Prop
  | .list, e =>
    (c.Client.List (uidOptions k ehpa) st).1 = .error e ∧ e.IsNotFound = false
  | .reference, e =>
    absent (c.Client.List (uidOptions k ehpa) st).1 = true ∧
    c.SetControllerReference ehpa (substituteLiteral k ehpa scale) = .error e
  | .create, e =>
    absent (c.Client.List (uidOptions k ehpa) st).1 = true ∧
    ∃ refs, c.SetControllerReference ehpa (substituteLiteral k ehpa scale) = .ok refs ∧
      (c.Client.Create (ownedSubstitute k ehpa scale refs)
        (c.Client.List (uidOptions k ehpa) st).2).1 = some e
  | .update, e =>
    ∃ E rest, (c.Client.List (uidOptions k ehpa) st).1 = .ok (E :: rest) ∧
      E.Spec.SubstituteTargetRef ≠ ehpa.Spec.ScaleTargetRef ∧
      (c.Client.Update (retargeted ehpa E) (c.Client.List (uidOptions k ehpa) st).2).1 = some e

/-- The store state after the `List` call of a pass. -/
def afterList (c : EffectiveHPAController σ τ) (k : Known)
    (ehpa : EffectiveHorizontalPodAutoscaler) (p : Pass σ τ) : Pass σ τ :=
  (clientList c (uidOptions k ehpa) p).2

/-- The same controller with other diagnostic sinks. -/
def withSinks {τ' : Type} (c : EffectiveHPAController σ τ) (recorder : EventRec → τ' → τ')
    (log : LogRec → τ' → τ') : EffectiveHPAController σ τ' where
  Client := c.Client
  SetControllerReference := c.SetControllerReference
  Recorder := recorder
  Log := log

/-- Whether a call is a `List`. -/
def Call.isList : Call → Bool
  | .list _ => true
  | _ => false

/-- The state after `n` further passes for the same owner and scale, each
started with an empty trace. -/
def further (c : EffectiveHPAController σ τ) (k : Known)
    (ehpa : EffectiveHorizontalPodAutoscaler) (scale : Scale) : Nat → Pass σ τ → Pass σ τ
  | 0, p => p
  | n + 1, p =>
    further c k ehpa scale n (ReconcileSubstitute c k ehpa scale (start p.store p.sink)).2

/-- The pass that follows `n` further passes from state `p`. -/
def furtherPass (c : EffectiveHPAController σ τ) (k : Known)
    (ehpa : EffectiveHorizontalPodAutoscaler) (scale : Scale) (n : Nat) (p : Pass σ τ) :
    Except Err Substitute × Pass σ τ :=
  ReconcileSubstitute c k ehpa scale
    (start (further c k ehpa scale n p).store (further c k ehpa scale n p).sink)

/-- The first stored match of the owner's UID label has the owner's target. -/
def Settled (k : Known) (ehpa : EffectiveHorizontalPodAutoscaler) (st : List Substitute) : Prop :=
  ∃ E rest, st.filter (fun s => (uidOptions k ehpa).all (matchesOption s)) = E :: rest ∧
    E.Spec.SubstituteTargetRef = ehpa.Spec.ScaleTargetRef

/-! ## Concrete objects -/

/-- Values for the constants of package `known`. -/
def knownC : Known := ⟨"effective-hpa-controller", "autoscaling.crane.io/effective-hpa-uid"⟩

/-- The target `Deployment/web`. -/
def webRef : CrossVersionObjectReference := ⟨"Deployment", "web", "apps/v1"⟩

/-- The target `Deployment/old-web`. -/
def oldRef : CrossVersionObjectReference := ⟨"Deployment", "old-web", "apps/v1"⟩

/-- The owner `web` in `ns1` with UID `abc`. -/
def webOwner : EffectiveHorizontalPodAutoscaler :=
  { Name := "web", Namespace := "ns1", UID := "abc", Spec := ⟨webRef⟩ }

/-- A scale of 3 replicas. -/
def scale3 : Scale := ⟨⟨3⟩⟩

/-- A `SetControllerReference` that always succeeds. -/
def okRef (o : EffectiveHorizontalPodAutoscaler) (_ : Substitute) :
    Except Err (List OwnerReference) :=
  .ok [⟨"autoscaling.crane.io/v1alpha1", "EffectiveHorizontalPodAutoscaler", o.Name, o.UID,
    true, true⟩]

/-- The controller over the in-memory store, with sinks that keep nothing. -/
def memC : EffectiveHPAController (List Substitute) Unit :=
  storeController okRef (fun _ u => u) (fun _ u => u)

/-- A controller whose collaborators answer with fixed values. -/
def scripted (l : Except Err (List Substitute)) (r : Except Err (List OwnerReference))
    (cr up : Option Err) : EffectiveHPAController Unit Unit where
  Client :=
    { Create := fun _ u => (cr, u)
      Update := fun _ u => (up, u)
      List := fun _ u => (l, u) }
  SetControllerReference := fun _ _ => r
  Recorder := fun _ u => u
  Log := fun _ u => u

/-- The owner references of a Substitute controlled by `webOwner`. -/
def ownerRefs : List OwnerReference :=
  [⟨"autoscaling.crane.io/v1alpha1", "EffectiveHorizontalPodAutoscaler", "web", "abc",
    true, true⟩]

/-- An existing Substitute of `webOwner` that still points at the old target. -/
def staleSub : Substitute :=
  { ownedSubstitute knownC webOwner ⟨⟨5⟩⟩ ownerRefs with Spec := ⟨oldRef, 5⟩ }

/-- An existing Substitute of `webOwner` that points at the owner's target. -/
def syncedSub : Substitute := ownedSubstitute knownC webOwner ⟨⟨5⟩⟩ ownerRefs

/-- A Substitute carrying the UID label of `webOwner` in another namespace. -/
def foreignSub : Substitute := { syncedSub with Namespace := "ns2" }

/-- An error that is not not-found. -/
def boom : Err := ⟨false, "connection refused"⟩

/-- A not-found error. -/
def gone : Err := ⟨true, "substitutes not found"⟩

/-- A controller whose `List` fails with an error that is not not-found. -/
def listFails : EffectiveHPAController Unit Unit :=
  scripted (.error boom) (.ok ownerRefs) none none

/-- A controller that finds nothing and whose `SetControllerReference` fails. -/
def referenceFails : EffectiveHPAController Unit Unit :=
  scripted (.ok []) (.error boom) none none

/-- A controller whose `List` reports not-found and whose `Create` fails. -/
def createFails : EffectiveHPAController Unit Unit :=
  scripted (.error gone) (.ok ownerRefs) (some boom) none

/-- A controller that finds a stale Substitute first and whose `Update` fails. -/
def updateFails : EffectiveHPAController Unit Unit :=
  scripted (.ok [staleSub, syncedSub]) (.ok ownerRefs) none (some boom)

/-! ## Path lemmas -/

theorem reconcile_absent (c : EffectiveHPAController σ τ) (k : Known)
    (ehpa : EffectiveHorizontalPodAutoscaler) (scale : Scale) (p : Pass σ τ)
    (h : absent (c.Client.List (uidOptions k ehpa) p.store).1 = true) :
    ReconcileSubstitute c k ehpa scale p =
      CreateSubstitute c k ehpa scale (clientList c (uidOptions k ehpa) p).2 := by
  unfold ReconcileSubstitute
  simp only [clientList, uidOptions] at h ⊢
  split
  · next err he =>
    rw [he] at h
    simp [absent] at h
    simp [h]
  · rfl
  · next first rest he =>
    rw [he] at h
    simp [absent] at h

theorem reconcile_present (c : EffectiveHPAController σ τ) (k : Known)
    (ehpa : EffectiveHorizontalPodAutoscaler) (scale : Scale) (p : Pass σ τ)
    (first : Substitute) (rest : List Substitute)
    (h : (c.Client.List (uidOptions k ehpa) p.store).1 = .ok (first :: rest)) :
    ReconcileSubstitute c k ehpa scale p =
      UpdateSubstituteIfNeed c ehpa first scale (clientList c (uidOptions k ehpa) p).2 := by
  unfold ReconcileSubstitute
  simp only [clientList, uidOptions] at h ⊢
  rw [h]

theorem reconcile_list_failed (c : EffectiveHPAController σ τ) (k : Known)
    (ehpa : EffectiveHorizontalPodAutoscaler) (scale : Scale) (p : Pass σ τ) (err : Err)
    (h : (c.Client.List (uidOptions k ehpa) p.store).1 = .error err)
    (hn : err.IsNotFound = false) :
    ReconcileSubstitute c k ehpa scale p =
      (.error err,
        logCall c
          (.error err "Failed to get Substitute" [("ehpa", .kobj ehpa.Namespace ehpa.Name)])
          (recorderEvent c ⟨ehpa, EventTypeNormal, "FailedGetSubstitute", err.Error⟩
            (clientList c (uidOptions k ehpa) p).2)) := by
  unfold ReconcileSubstitute
  simp only [clientList, uidOptions] at h ⊢
  rw [h]
  simp [hn]

theorem create_reference_failed (c : EffectiveHPAController σ τ) (k : Known)
    (ehpa : EffectiveHorizontalPodAutoscaler) (scale : Scale) (p : Pass σ τ) (err : Err)
    (h : c.SetControllerReference ehpa (substituteLiteral k ehpa scale) = .error err) :
    CreateSubstitute c k ehpa scale p =
      (.error err,
        logCall c (.error err "Failed to create object" [("Substitute", .sub none)])
          (recorderEvent c ⟨ehpa, EventTypeNormal, "FailedCreateSubstituteObject", err.Error⟩
            (setControllerReference c ehpa (substituteLiteral k ehpa scale) p).2)) := by
  simp [CreateSubstitute, NewSubstituteObject, setControllerReference, h]

theorem create_store_failed (c : EffectiveHPAController σ τ) (k : Known)
    (ehpa : EffectiveHorizontalPodAutoscaler) (scale : Scale) (p : Pass σ τ)
    (refs : List OwnerReference) (err : Err)
    (h : c.SetControllerReference ehpa (substituteLiteral k ehpa scale) = .ok refs)
    (hc : (c.Client.Create (ownedSubstitute k ehpa scale refs) p.store).1 = some err) :
    CreateSubstitute c k ehpa scale p =
      (.error err,
        logCall c
          (.error err "Failed to create"
            [("Substitute", .sub (some (ownedSubstitute k ehpa scale refs)))])
          (recorderEvent c ⟨ehpa, EventTypeNormal, "FailedCreateSubstitute", err.Error⟩
            (clientCreate c (ownedSubstitute k ehpa scale refs)
              (setControllerReference c ehpa (substituteLiteral k ehpa scale) p).2).2)) := by
  simp only [ownedSubstitute] at hc
  simp [CreateSubstitute, NewSubstituteObject, setControllerReference, clientCreate, h, hc,
    ownedSubstitute]

theorem create_succeeded (c : EffectiveHPAController σ τ) (k : Known)
    (ehpa : EffectiveHorizontalPodAutoscaler) (scale : Scale) (p : Pass σ τ)
    (refs : List OwnerReference)
    (h : c.SetControllerReference ehpa (substituteLiteral k ehpa scale) = .ok refs)
    (hc : (c.Client.Create (ownedSubstitute k ehpa scale refs) p.store).1 = none) :
    CreateSubstitute c k ehpa scale p =
      (.ok (ownedSubstitute k ehpa scale refs),
        recorderEvent c
          ⟨ehpa, EventTypeNormal, "SubstituteCreated", "Create Substitute successfully"⟩
          (logCall c
            (.info 0 "Create Substitute successfully"
              [("Substitute", .sub (some (ownedSubstitute k ehpa scale refs)))])
            (clientCreate c (ownedSubstitute k ehpa scale refs)
              (setControllerReference c ehpa (substituteLiteral k ehpa scale) p).2).2)) := by
  simp only [ownedSubstitute] at hc
  simp [CreateSubstitute, NewSubstituteObject, setControllerReference, clientCreate, h, hc,
    ownedSubstitute]

theorem update_synced (c : EffectiveHPAController σ τ)
    (ehpa : EffectiveHorizontalPodAutoscaler) (e : Substitute) (scale : Scale) (p : Pass σ τ)
    (h : e.Spec.SubstituteTargetRef = ehpa.Spec.ScaleTargetRef) :
    UpdateSubstituteIfNeed c ehpa e scale p = (.ok e, p) := by
  simp [UpdateSubstituteIfNeed, h]

theorem update_failed (c : EffectiveHPAController σ τ)
    (ehpa : EffectiveHorizontalPodAutoscaler) (e : Substitute) (scale : Scale) (p : Pass σ τ)
    (err : Err)
    (h : e.Spec.SubstituteTargetRef ≠ ehpa.Spec.ScaleTargetRef)
    (hu : (c.Client.Update (retargeted ehpa e) p.store).1 = some err) :
    UpdateSubstituteIfNeed c ehpa e scale p =
      (.error err,
        logCall c (.error err "Failed to update" [("Substitute", .sub (some (retargeted ehpa e)))])
          (recorderEvent c ⟨ehpa, EventTypeNormal, "FailedUpdateSubstitute", err.Error⟩
            (clientUpdate c (retargeted ehpa e) (beforeUpdate c ehpa e p)).2)) := by
  simp only [retargeted] at hu
  simp [UpdateSubstituteIfNeed, h, clientUpdate, beforeUpdate, logCall, retargeted, hu]

theorem update_succeeded (c : EffectiveHPAController σ τ)
    (ehpa : EffectiveHorizontalPodAutoscaler) (e : Substitute) (scale : Scale) (p : Pass σ τ)
    (h : e.Spec.SubstituteTargetRef ≠ ehpa.Spec.ScaleTargetRef)
    (hu : (c.Client.Update (retargeted ehpa e) p.store).1 = none) :
    UpdateSubstituteIfNeed c ehpa e scale p =
      (.ok (retargeted ehpa e),
        logCall c
          (.info 0 "Update Substitute successful" [("Substitute", .kobj e.Namespace e.Name)])
          (clientUpdate c (retargeted ehpa e) (beforeUpdate c ehpa e p)).2) := by
  simp only [retargeted] at hu
  simp [UpdateSubstituteIfNeed, h, clientUpdate, beforeUpdate, logCall, retargeted, hu]

/-- The three paths of a pass whose lookup found nothing. -/
theorem reconcile_cases_absent (c : EffectiveHPAController σ τ) (k : Known)
    (ehpa : EffectiveHorizontalPodAutoscaler) (scale : Scale) (p : Pass σ τ)
    (ha : absent (c.Client.List (uidOptions k ehpa) p.store).1 = true) :
    (∃ err, absent (c.Client.List (uidOptions k ehpa) p.store).1 = true ∧
      c.SetControllerReference ehpa (substituteLiteral k ehpa scale) = .error err ∧
      ReconcileSubstitute c k ehpa scale p =
        (.error err,
          logCall c (.error err "Failed to create object" [("Substitute", .sub none)])
            (recorderEvent c
              ⟨ehpa, EventTypeNormal, "FailedCreateSubstituteObject", err.Error⟩
              (setControllerReference c ehpa (substituteLiteral k ehpa scale)
                (afterList c k ehpa p)).2))) ∨
    (∃ refs err, absent (c.Client.List (uidOptions k ehpa) p.store).1 = true ∧
      c.SetControllerReference ehpa (substituteLiteral k ehpa scale) = .ok refs ∧
      (c.Client.Create (ownedSubstitute k ehpa scale refs) (afterList c k ehpa p).store).1
        = some err ∧
      ReconcileSubstitute c k ehpa scale p =
        (.error err,
          logCall c
            (.error err "Failed to create"
              [("Substitute", .sub (some (ownedSubstitute k ehpa scale refs)))])
            (recorderEvent c ⟨ehpa, EventTypeNormal, "FailedCreateSubstitute", err.Error⟩
              (clientCreate c (ownedSubstitute k ehpa scale refs)
                (setControllerReference c ehpa (substituteLiteral k ehpa scale)
                  (afterList c k ehpa p)).2).2))) ∨
    (∃ refs, absent (c.Client.List (uidOptions k ehpa) p.store).1 = true ∧
      c.SetControllerReference ehpa (substituteLiteral k ehpa scale) = .ok refs ∧
      (c.Client.Create (ownedSubstitute k ehpa scale refs) (afterList c k ehpa p).store).1
        = none ∧
      ReconcileSubstitute c k ehpa scale p =
        (.ok (ownedSubstitute k ehpa scale refs),
          recorderEvent c
            ⟨ehpa, EventTypeNormal, "SubstituteCreated", "Create Substitute successfully"⟩
            (logCall c
              (.info 0 "Create Substitute successfully"
                [("Substitute", .sub (some (ownedSubstitute k ehpa scale refs)))])
              (clientCreate c (ownedSubstitute k ehpa scale refs)
                (setControllerReference c ehpa (substituteLiteral k ehpa scale)
                  (afterList c k ehpa p)).2).2))) := by
  have hp : ReconcileSubstitute c k ehpa scale p =
      CreateSubstitute c k ehpa scale (afterList c k ehpa p) :=
    reconcile_absent c k ehpa scale p ha
  rcases hs : c.SetControllerReference ehpa (substituteLiteral k ehpa scale) with err | refs
  · refine Or.inl ⟨err, ha, rfl, ?_⟩
    rw [hp, create_reference_failed c k ehpa scale _ err hs]
  · rcases hc : (c.Client.Create (ownedSubstitute k ehpa scale refs)
        (afterList c k ehpa p).store).1 with _ | err
    · refine Or.inr (Or.inr ⟨refs, ha, rfl, hc, ?_⟩)
      rw [hp, create_succeeded c k ehpa scale _ refs hs hc]
    · refine Or.inr (Or.inl ⟨refs, err, ha, rfl, hc, ?_⟩)
      rw [hp, create_store_failed c k ehpa scale _ refs err hs hc]

/-- Every pass follows one of seven paths. -/
theorem reconcile_cases (c : EffectiveHPAController σ τ) (k : Known)
    (ehpa : EffectiveHorizontalPodAutoscaler) (scale : Scale) (p : Pass σ τ) :
    (∃ err, (c.Client.List (uidOptions k ehpa) p.store).1 = .error err ∧
      err.IsNotFound = false ∧
      ReconcileSubstitute c k ehpa scale p =
        (.error err,
          logCall c
            (.error err "Failed to get Substitute" [("ehpa", .kobj ehpa.Namespace ehpa.Name)])
            (recorderEvent c ⟨ehpa, EventTypeNormal, "FailedGetSubstitute", err.Error⟩
              (afterList c k ehpa p)))) ∨
    (∃ err, absent (c.Client.List (uidOptions k ehpa) p.store).1 = true ∧
      c.SetControllerReference ehpa (substituteLiteral k ehpa scale) = .error err ∧
      ReconcileSubstitute c k ehpa scale p =
        (.error err,
          logCall c (.error err "Failed to create object" [("Substitute", .sub none)])
            (recorderEvent c
              ⟨ehpa, EventTypeNormal, "FailedCreateSubstituteObject", err.Error⟩
              (setControllerReference c ehpa (substituteLiteral k ehpa scale)
                (afterList c k ehpa p)).2))) ∨
    (∃ refs err, absent (c.Client.List (uidOptions k ehpa) p.store).1 = true ∧
      c.SetControllerReference ehpa (substituteLiteral k ehpa scale) = .ok refs ∧
      (c.Client.Create (ownedSubstitute k ehpa scale refs) (afterList c k ehpa p).store).1
        = some err ∧
      ReconcileSubstitute c k ehpa scale p =
        (.error err,
          logCall c
            (.error err "Failed to create"
              [("Substitute", .sub (some (ownedSubstitute k ehpa scale refs)))])
            (recorderEvent c ⟨ehpa, EventTypeNormal, "FailedCreateSubstitute", err.Error⟩
              (clientCreate c (ownedSubstitute k ehpa scale refs)
                (setControllerReference c ehpa (substituteLiteral k ehpa scale)
                  (afterList c k ehpa p)).2).2))) ∨
    (∃ refs, absent (c.Client.List (uidOptions k ehpa) p.store).1 = true ∧
      c.SetControllerReference ehpa (substituteLiteral k ehpa scale) = .ok refs ∧
      (c.Client.Create (ownedSubstitute k ehpa scale refs) (afterList c k ehpa p).store).1
        = none ∧
      ReconcileSubstitute c k ehpa scale p =
        (.ok (ownedSubstitute k ehpa scale refs),
          recorderEvent c
            ⟨ehpa, EventTypeNormal, "SubstituteCreated", "Create Substitute successfully"⟩
            (logCall c
              (.info 0 "Create Substitute successfully"
                [("Substitute", .sub (some (ownedSubstitute k ehpa scale refs)))])
              (clientCreate c (ownedSubstitute k ehpa scale refs)
                (setControllerReference c ehpa (substituteLiteral k ehpa scale)
                  (afterList c k ehpa p)).2).2))) ∨
    (∃ E rest, (c.Client.List (uidOptions k ehpa) p.store).1 = .ok (E :: rest) ∧
      E.Spec.SubstituteTargetRef = ehpa.Spec.ScaleTargetRef ∧
      ReconcileSubstitute c k ehpa scale p = (.ok E, afterList c k ehpa p)) ∨
    (∃ E rest err, (c.Client.List (uidOptions k ehpa) p.store).1 = .ok (E :: rest) ∧
      E.Spec.SubstituteTargetRef ≠ ehpa.Spec.ScaleTargetRef ∧
      (c.Client.Update (retargeted ehpa E) (afterList c k ehpa p).store).1 = some err ∧
      ReconcileSubstitute c k ehpa scale p =
        (.error err,
          logCall c
            (.error err "Failed to update" [("Substitute", .sub (some (retargeted ehpa E)))])
            (recorderEvent c ⟨ehpa, EventTypeNormal, "FailedUpdateSubstitute", err.Error⟩
              (clientUpdate c (retargeted ehpa E)
                (beforeUpdate c ehpa E (afterList c k ehpa p))).2))) ∨
    (∃ E rest, (c.Client.List (uidOptions k ehpa) p.store).1 = .ok (E :: rest) ∧
      E.Spec.SubstituteTargetRef ≠ ehpa.Spec.ScaleTargetRef ∧
      (c.Client.Update (retargeted ehpa E) (afterList c k ehpa p).store).1 = none ∧
      ReconcileSubstitute c k ehpa scale p =
        (.ok (retargeted ehpa E),
          logCall c
            (.info 0 "Update Substitute successful" [("Substitute", .kobj E.Namespace E.Name)])
            (clientUpdate c (retargeted ehpa E)
              (beforeUpdate c ehpa E (afterList c k ehpa p))).2)) := by
  rcases hl : (c.Client.List (uidOptions k ehpa) p.store).1 with err | items
  · cases hn : err.IsNotFound
    · exact Or.inl ⟨err, rfl, hn, reconcile_list_failed c k ehpa scale p err hl hn⟩
    · have ha : absent (c.Client.List (uidOptions k ehpa) p.store).1 = true := by
        simp [hl, absent, hn]
      rw [← hl]
      rcases reconcile_cases_absent c k ehpa scale p ha with h | h | h
      · exact Or.inr (Or.inl h)
      · exact Or.inr (Or.inr (Or.inl h))
      · exact Or.inr (Or.inr (Or.inr (Or.inl h)))
  · cases items with
    | nil =>
      have ha : absent (c.Client.List (uidOptions k ehpa) p.store).1 = true := by
        simp [hl, absent]
      rw [← hl]
      rcases reconcile_cases_absent c k ehpa scale p ha with h | h | h
      · exact Or.inr (Or.inl h)
      · exact Or.inr (Or.inr (Or.inl h))
      · exact Or.inr (Or.inr (Or.inr (Or.inl h)))
    | cons E rest =>
      have hp : ReconcileSubstitute c k ehpa scale p =
          UpdateSubstituteIfNeed c ehpa E scale (afterList c k ehpa p) :=
        reconcile_present c k ehpa scale p E rest hl
      refine Or.inr (Or.inr (Or.inr (Or.inr ?_)))
      by_cases hs : E.Spec.SubstituteTargetRef = ehpa.Spec.ScaleTargetRef
      · refine Or.inl ⟨E, rest, rfl, hs, ?_⟩
        rw [hp, update_synced c ehpa E scale _ hs]
      · rcases hu : (c.Client.Update (retargeted ehpa E) (afterList c k ehpa p).store).1
          with _ | err
        · refine Or.inr (Or.inr ⟨E, rest, rfl, hs, hu, ?_⟩)
          rw [hp, update_succeeded c ehpa E scale _ hs hu]
        · refine Or.inr (Or.inl ⟨E, rest, err, rfl, hs, hu, ?_⟩)
          rw [hp, update_failed c ehpa E scale _ err hs hu]

/-- The result, the final store state and the trace of a pass do not depend on
what the event recorder and the logger do. -/
theorem sink_independent {τ' : Type} (c : EffectiveHPAController σ τ) (k : Known)
    (ehpa : EffectiveHorizontalPodAutoscaler) (scale : Scale) (st : σ) (sk : τ)
    (recorder : EventRec → τ' → τ') (log : LogRec → τ' → τ') (sk' : τ') :
    (ReconcileSubstitute (withSinks c recorder log) k ehpa scale (start st sk')).1
      = (ReconcileSubstitute c k ehpa scale (start st sk)).1 ∧
    (ReconcileSubstitute (withSinks c recorder log) k ehpa scale (start st sk')).2.store
      = (ReconcileSubstitute c k ehpa scale (start st sk)).2.store ∧
    (ReconcileSubstitute (withSinks c recorder log) k ehpa scale (start st sk')).2.trace
      = (ReconcileSubstitute c k ehpa scale (start st sk)).2.trace := by
  rcases reconcile_cases c k ehpa scale (start st sk) with
    ⟨err, hl, hn, hr⟩ | ⟨err, ha, hs, hr⟩ | ⟨refs, err, ha, hs, hc, hr⟩ | ⟨refs, ha, hs, hc, hr⟩ |
    ⟨E, rest, hl, hs, hr⟩ | ⟨E, rest, err, hl, hs, hu, hr⟩ | ⟨E, rest, hl, hs, hu, hr⟩
  · rw [hr, reconcile_list_failed (withSinks c recorder log) k ehpa scale (start st sk') err hl hn]
    simp [logCall, recorderEvent, afterList, clientList, start, withSinks]
  · rw [hr, reconcile_absent (withSinks c recorder log) k ehpa scale (start st sk') ha,
      show (clientList (withSinks c recorder log) (uidOptions k ehpa) (start st sk')).2
        = afterList (withSinks c recorder log) k ehpa (start st sk') from rfl,
      create_reference_failed (withSinks c recorder log) k ehpa scale
        (afterList (withSinks c recorder log) k ehpa (start st sk')) err hs]
    simp [logCall, recorderEvent, setControllerReference, afterList, clientList, start, withSinks]
  · rw [hr, reconcile_absent (withSinks c recorder log) k ehpa scale (start st sk') ha,
      show (clientList (withSinks c recorder log) (uidOptions k ehpa) (start st sk')).2
        = afterList (withSinks c recorder log) k ehpa (start st sk') from rfl,
      create_store_failed (withSinks c recorder log) k ehpa scale
        (afterList (withSinks c recorder log) k ehpa (start st sk')) refs err hs hc]
    simp [logCall, recorderEvent, setControllerReference, clientCreate, afterList, clientList,
      start, withSinks]
  · rw [hr, reconcile_absent (withSinks c recorder log) k ehpa scale (start st sk') ha,
      show (clientList (withSinks c recorder log) (uidOptions k ehpa) (start st sk')).2
        = afterList (withSinks c recorder log) k ehpa (start st sk') from rfl,
      create_succeeded (withSinks c recorder log) k ehpa scale
        (afterList (withSinks c recorder log) k ehpa (start st sk')) refs hs hc]
    simp [logCall, recorderEvent, setControllerReference, clientCreate, afterList, clientList,
      start, withSinks]
  · rw [hr, reconcile_present (withSinks c recorder log) k ehpa scale (start st sk') E rest hl,
      show (clientList (withSinks c recorder log) (uidOptions k ehpa) (start st sk')).2
        = afterList (withSinks c recorder log) k ehpa (start st sk') from rfl,
      update_synced (withSinks c recorder log) ehpa E scale
        (afterList (withSinks c recorder log) k ehpa (start st sk')) hs]
    simp [afterList, clientList, start, withSinks]
  · rw [hr, reconcile_present (withSinks c recorder log) k ehpa scale (start st sk') E rest hl,
      show (clientList (withSinks c recorder log) (uidOptions k ehpa) (start st sk')).2
        = afterList (withSinks c recorder log) k ehpa (start st sk') from rfl,
      update_failed (withSinks c recorder log) ehpa E scale
        (afterList (withSinks c recorder log) k ehpa (start st sk')) err hs hu]
    simp [logCall, recorderEvent, clientUpdate, beforeUpdate, afterList, clientList, start,
      withSinks]
  · rw [hr, reconcile_present (withSinks c recorder log) k ehpa scale (start st sk') E rest hl,
      show (clientList (withSinks c recorder log) (uidOptions k ehpa) (start st sk')).2
        = afterList (withSinks c recorder log) k ehpa (start st sk') from rfl,
      update_succeeded (withSinks c recorder log) ehpa E scale
        (afterList (withSinks c recorder log) k ehpa (start st sk')) hs hu]
    simp [logCall, recorderEvent, clientUpdate, beforeUpdate, afterList, clientList, start,
      withSinks]

theorem labelGet_labelSet (m : Labels) (key v : String) :
    labelGet (labelSet m key v) key = some v := by
  simp [labelGet, labelSet, List.lookup]

theorem uidOptions_match (k : Known) (ehpa : EffectiveHorizontalPodAutoscaler) (s : Substitute) :
    (uidOptions k ehpa).all (matchesOption s)
      = (labelGet s.Labels k.EffectiveHorizontalPodAutoscalerUidLabel == some ehpa.UID) := by
  simp [uidOptions, matchesOption, labelSet]

theorem filter_head_after_replace (m : Substitute → Bool) (obj E : Substitute)
    (hm : m obj = true) (hk : sameKey obj E = true) :
    ∀ (st rest : List Substitute), st.filter m = E :: rest →
      ∃ rest', (st.map (fun s => if sameKey obj s then obj else s)).filter m = obj :: rest' := by
  intro st
  induction st with
  | nil => intro rest h; simp at h
  | cons x xs ih =>
    intro rest h
    by_cases hx : m x = true
    · rw [List.filter_cons_of_pos hx] at h
      simp only [List.cons.injEq] at h
      obtain ⟨rfl, -⟩ := h
      exact ⟨(xs.map (fun s => if sameKey obj s then obj else s)).filter m,
        by simp [hk, hm]⟩
    · rw [List.filter_cons_of_neg hx] at h
      obtain ⟨rest', hr⟩ := ih rest h
      by_cases hkx : sameKey obj x = true
      · exact ⟨(xs.map (fun s => if sameKey obj s then obj else s)).filter m,
          by simp [hkx, hm]⟩
      · exact ⟨rest', by simp [hkx, hx, hr]⟩

/-- A pass over a settled store is a no-op that returns the first match. -/
theorem settled_pass (setRef : EffectiveHorizontalPodAutoscaler → Substitute →
      Except Err (List OwnerReference))
    (recorder : EventRec → τ → τ) (log : LogRec → τ → τ) (k : Known)
    (ehpa : EffectiveHorizontalPodAutoscaler) (scale : Scale) (st : List Substitute) (sk : τ)
    (h : Settled k ehpa st) :
    ∃ E, ReconcileSubstitute (storeController setRef recorder log) k ehpa scale (start st sk)
        = (.ok E, ⟨st, sk, [Call.list (uidOptions k ehpa)]⟩) ∧
      E.Spec.SubstituteTargetRef = ehpa.Spec.ScaleTargetRef := by
  obtain ⟨E, rest, hf, hs⟩ := h
  refine ⟨E, ?_, hs⟩
  rw [reconcile_present (storeController setRef recorder log) k ehpa scale (start st sk) E rest
    (by simp [storeController, storeClient, storeList, start, hf])]
  rw [update_synced _ ehpa E scale _ hs]
  simp [clientList, storeController, storeClient, storeList, start]

/-- A successful pass leaves the store settled. -/
theorem pass_settles (setRef : EffectiveHorizontalPodAutoscaler → Substitute →
      Except Err (List OwnerReference))
    (recorder : EventRec → τ → τ) (log : LogRec → τ → τ) (k : Known)
    (ehpa : EffectiveHorizontalPodAutoscaler) (scale : Scale) (st : List Substitute) (sk : τ)
    (sub : Substitute)
    (h : (ReconcileSubstitute (storeController setRef recorder log) k ehpa scale
      (start st sk)).1 = .ok sub) :
    Settled k ehpa (ReconcileSubstitute (storeController setRef recorder log) k ehpa scale
      (start st sk)).2.store := by
  rcases reconcile_cases (storeController setRef recorder log) k ehpa scale (start st sk) with
    ⟨err, _, _, hr⟩ | ⟨err, _, _, hr⟩ | ⟨refs, err, _, _, _, hr⟩ | ⟨refs, ha, hs, hc, hr⟩ |
    ⟨E, rest, hl, hs, hr⟩ | ⟨E, rest, err, _, _, _, hr⟩ | ⟨E, rest, hl, hs, hu, hr⟩
  · rw [hr] at h; simp at h
  · rw [hr] at h; simp at h
  · rw [hr] at h; simp at h
  · rw [hr]
    have hemp : st.filter (fun s => (uidOptions k ehpa).all (matchesOption s)) = [] := by
      cases hf : st.filter (fun s => (uidOptions k ehpa).all (matchesOption s)) with
      | nil => rfl
      | cons x xs =>
        simp [storeController, storeClient, storeList, start, hf, absent] at ha
    have hst : (storeCreate (ownedSubstitute k ehpa scale refs) st).2
        = st ++ [ownedSubstitute k ehpa scale refs] := by
      have hc2 : (storeCreate (ownedSubstitute k ehpa scale refs) st).1 = none := hc
      unfold storeCreate at hc2 ⊢
      split at hc2
      · simp at hc2
      · rename_i hany
        rw [if_neg hany]
    have hm : (uidOptions k ehpa).all (matchesOption (ownedSubstitute k ehpa scale refs))
        = true := by
      rw [uidOptions_match]
      simp [ownedSubstitute, substituteLiteral, labelGet_labelSet]
    refine ⟨ownedSubstitute k ehpa scale refs, [], ?_, ?_⟩
    · simp only [recorderEvent, logCall, clientCreate, setControllerReference, afterList,
        clientList, storeController, storeClient, storeList, start]
      show List.filter _ (storeCreate (ownedSubstitute k ehpa scale refs) st).2 = _
      rw [hst, List.filter_append, hemp]
      simp [hm]
    · simp [ownedSubstitute, substituteLiteral]
  · rw [hr]
    refine ⟨E, rest, ?_, hs⟩
    simpa [afterList, clientList, storeController, storeClient, storeList, start] using hl
  · rw [hr] at h; simp at h
  · rw [hr]
    have hf : st.filter (fun s => (uidOptions k ehpa).all (matchesOption s)) = E :: rest := by
      simpa [storeController, storeClient, storeList, start] using hl
    have hmE : (uidOptions k ehpa).all (matchesOption E) = true := by
      have : E ∈ st.filter (fun s => (uidOptions k ehpa).all (matchesOption s)) := by
        rw [hf]; exact List.mem_cons_self _ _
      exact (List.mem_filter.mp this).2
    have hm : (uidOptions k ehpa).all (matchesOption (retargeted ehpa E)) = true := by
      rw [uidOptions_match] at hmE ⊢
      simpa [retargeted] using hmE
    have hk : sameKey (retargeted ehpa E) E = true := by
      simp [sameKey, retargeted]
    have hst : (storeUpdate (retargeted ehpa E) st).2
        = st.map (fun s => if sameKey (retargeted ehpa E) s then retargeted ehpa E else s) := by
      have hu2 : (storeUpdate (retargeted ehpa E) st).1 = none := hu
      unfold storeUpdate at hu2 ⊢
      split at hu2
      · rename_i hany
        rw [if_pos hany]
      · simp at hu2
    obtain ⟨rest', hr'⟩ := filter_head_after_replace
      (fun s => (uidOptions k ehpa).all (matchesOption s)) (retargeted ehpa E) E hm hk st rest hf
    refine ⟨retargeted ehpa E, rest', ?_, by simp [retargeted]⟩
    simp only [logCall, clientUpdate, beforeUpdate, afterList, clientList, storeController,
      storeClient, storeList, start]
    show List.filter _ (storeUpdate (retargeted ehpa E) st).2 = _
    rw [hst]
    exact hr'

/-- Further passes keep a settled store as it is. -/
theorem further_store (setRef : EffectiveHorizontalPodAutoscaler → Substitute →
      Except Err (List OwnerReference))
    (recorder : EventRec → τ → τ) (log : LogRec → τ → τ) (k : Known)
    (ehpa : EffectiveHorizontalPodAutoscaler) (scale : Scale) (st : List Substitute)
    (h : Settled k ehpa st) :
    ∀ (n : Nat) (p : Pass (List Substitute) τ), p.store = st →
      (further (storeController setRef recorder log) k ehpa scale n p).store = st := by
  intro n
  induction n with
  | zero => intro p hp; simpa [further] using hp
  | succ n ih =>
    intro p hp
    simp only [further]
    apply ih
    obtain ⟨E, hE, -⟩ := settled_pass setRef recorder log k ehpa scale st p.sink h
    rw [hp, hE]

/-! ## Theorems -/

/-- C1 (create-on-absent): when `List` succeeds with no item and both
`SetControllerReference` and `Create` succeed, the pass issues exactly one
`Create` and no `Update`; the object created is the one returned, and it has
name `"ehpa-" ++ O.Name`, the owner's namespace, the owner's UID under the UID
label, the owner's target reference and the replicas of the supplied scale. -/
theorem create_on_absent (c : EffectiveHPAController σ τ) (k : Known)
    (ehpa : EffectiveHorizontalPodAutoscaler) (scale : Scale) (st : σ) (sk : τ)
    (refs : List OwnerReference)
    (hl : (c.Client.List (uidOptions k ehpa) st).1 = .ok [])
    (hs : c.SetControllerReference ehpa (substituteLiteral k ehpa scale) = .ok refs)
    (hc : (c.Client.Create (ownedSubstitute k ehpa scale refs)
        (c.Client.List (uidOptions k ehpa) st).2).1 = none) :
    ∃ sub : Substitute,
      (ReconcileSubstitute c k ehpa scale (start st sk)).1 = .ok sub ∧
      (ReconcileSubstitute c k ehpa scale (start st sk)).2.trace.filter Call.isCreate
        = [Call.create sub] ∧
      (ReconcileSubstitute c k ehpa scale (start st sk)).2.trace.filter Call.isUpdate = [] ∧
      sub.Name = "ehpa-" ++ ehpa.Name ∧
      sub.Namespace = ehpa.Namespace ∧
      labelGet sub.Labels k.EffectiveHorizontalPodAutoscalerUidLabel = some ehpa.UID ∧
      sub.Spec.SubstituteTargetRef = ehpa.Spec.ScaleTargetRef ∧
      sub.Spec.Replicas = scale.Spec.Replicas := by
  refine ⟨ownedSubstitute k ehpa scale refs, ?_⟩
  rw [reconcile_absent c k ehpa scale (start st sk) (by simp [start, hl, absent])]
  rw [create_succeeded c k ehpa scale _ refs hs (by simpa [clientList, start] using hc)]
  simp [recorderEvent, logCall, clientCreate, setControllerReference, clientList, start,
    Call.isCreate, Call.isUpdate, ownedSubstitute, substituteLiteral, labelGet, labelSet]

/-- Witness of C1 on the scenario of the spec: owner `web` in `ns1` with UID
`abc` and replicas 3 over the empty store. -/
theorem create_on_absent_witness :
    ∃ sub : Substitute,
      (ReconcileSubstitute memC knownC webOwner scale3 (start [] ())).1 = .ok sub ∧
      (ReconcileSubstitute memC knownC webOwner scale3 (start [] ())).2.trace.filter
        Call.isCreate = [Call.create sub] ∧
      (ReconcileSubstitute memC knownC webOwner scale3 (start [] ())).2.trace.filter
        Call.isUpdate = [] ∧
      sub.Name = "ehpa-web" ∧
      sub.Namespace = "ns1" ∧
      labelGet sub.Labels knownC.EffectiveHorizontalPodAutoscalerUidLabel = some "abc" ∧
      sub.Spec.SubstituteTargetRef = ⟨"Deployment", "web", "apps/v1"⟩ ∧
      sub.Spec.Replicas = 3 :=
  create_on_absent memC knownC webOwner scale3 [] () ownerRefs rfl rfl rfl

/-- C2 (update-on-divergence): when the first item `E` returned by `List` has a
target reference different from the owner's and `Update` succeeds, the pass
issues exactly one `Update` and no `Create`; the object passed to `Update` is
the one returned, its target reference is the owner's, and its replicas and
its metadata (name, namespace, labels, owner references) are those of `E`,
for every scale. -/
theorem update_on_divergence (c : EffectiveHPAController σ τ) (k : Known)
    (ehpa : EffectiveHorizontalPodAutoscaler) (scale : Scale) (st : σ) (sk : τ)
    (E : Substitute) (rest : List Substitute)
    (hl : (c.Client.List (uidOptions k ehpa) st).1 = .ok (E :: rest))
    (hd : E.Spec.SubstituteTargetRef ≠ ehpa.Spec.ScaleTargetRef)
    (hu : (c.Client.Update (retargeted ehpa E)
        (c.Client.List (uidOptions k ehpa) st).2).1 = none) :
    ∃ sub : Substitute,
      (ReconcileSubstitute c k ehpa scale (start st sk)).1 = .ok sub ∧
      (ReconcileSubstitute c k ehpa scale (start st sk)).2.trace.filter Call.isUpdate
        = [Call.update sub] ∧
      (ReconcileSubstitute c k ehpa scale (start st sk)).2.trace.filter Call.isCreate = [] ∧
      sub.Spec.SubstituteTargetRef = ehpa.Spec.ScaleTargetRef ∧
      sub.Spec.Replicas = E.Spec.Replicas ∧
      sub.toObjectMeta = E.toObjectMeta := by
  refine ⟨retargeted ehpa E, ?_⟩
  rw [reconcile_present c k ehpa scale (start st sk) E rest (by simpa [start] using hl)]
  rw [update_succeeded c ehpa E scale _ hd (by simpa [clientList, start] using hu)]
  simp [logCall, clientUpdate, beforeUpdate, clientList, start, Call.isCreate, Call.isUpdate,
    retargeted]

/-- Witness of C2 on the scenario of the spec: the stored Substitute points at
`old-web` with 5 replicas, the owner at `web`, and the supplied scale is 3. -/
theorem update_on_divergence_witness :
    ∃ sub : Substitute,
      (ReconcileSubstitute memC knownC webOwner scale3 (start [staleSub] ())).1 = .ok sub ∧
      (ReconcileSubstitute memC knownC webOwner scale3 (start [staleSub] ())).2.trace.filter
        Call.isUpdate = [Call.update sub] ∧
      (ReconcileSubstitute memC knownC webOwner scale3 (start [staleSub] ())).2.trace.filter
        Call.isCreate = [] ∧
      sub.Spec.SubstituteTargetRef = ⟨"Deployment", "web", "apps/v1"⟩ ∧
      sub.Spec.Replicas = 5 ∧
      sub.toObjectMeta = staleSub.toObjectMeta :=
  update_on_divergence memC knownC webOwner scale3 [staleSub] () staleSub [] rfl (by decide) rfl

/-- C3 (no-op-on-sync): when the first item `E` returned by `List` has the
owner's target reference, the pass makes no call after `List` (so no `Update`
and no `Create`), returns `E` itself without error, and leaves the store as
`List` left it, whatever the replicas of `E` and of the scale. -/
theorem noop_on_sync (c : EffectiveHPAController σ τ) (k : Known)
    (ehpa : EffectiveHorizontalPodAutoscaler) (scale : Scale) (st : σ) (sk : τ)
    (E : Substitute) (rest : List Substitute)
    (hl : (c.Client.List (uidOptions k ehpa) st).1 = .ok (E :: rest))
    (hs : E.Spec.SubstituteTargetRef = ehpa.Spec.ScaleTargetRef) :
    (ReconcileSubstitute c k ehpa scale (start st sk)).1 = .ok E ∧
    (ReconcileSubstitute c k ehpa scale (start st sk)).2.trace = [Call.list (uidOptions k ehpa)] ∧
    (ReconcileSubstitute c k ehpa scale (start st sk)).2.trace.filter Call.isUpdate = [] ∧
    (ReconcileSubstitute c k ehpa scale (start st sk)).2.trace.filter Call.isCreate = [] ∧
    (ReconcileSubstitute c k ehpa scale (start st sk)).2.store
      = (c.Client.List (uidOptions k ehpa) st).2 ∧
    (ReconcileSubstitute c k ehpa scale (start st sk)).2.sink = sk := by
  rw [reconcile_present c k ehpa scale (start st sk) E rest (by simpa [start] using hl)]
  rw [update_synced c ehpa E scale _ hs]
  simp [clientList, start, Call.isCreate, Call.isUpdate]

/-- Witness of C3: the stored Substitute is in sync and has 5 replicas while
the supplied scale is 3. -/
theorem noop_on_sync_witness :
    syncedSub.Spec.Replicas ≠ scale3.Spec.Replicas ∧
    (ReconcileSubstitute memC knownC webOwner scale3 (start [syncedSub] ())).1 = .ok syncedSub ∧
    (ReconcileSubstitute memC knownC webOwner scale3 (start [syncedSub] ())).2.trace
      = [Call.list (uidOptions knownC webOwner)] ∧
    (ReconcileSubstitute memC knownC webOwner scale3 (start [syncedSub] ())).2.trace.filter
      Call.isUpdate = [] ∧
    (ReconcileSubstitute memC knownC webOwner scale3 (start [syncedSub] ())).2.trace.filter
      Call.isCreate = [] ∧
    (ReconcileSubstitute memC knownC webOwner scale3 (start [syncedSub] ())).2.store
      = [syncedSub] ∧
    (ReconcileSubstitute memC knownC webOwner scale3 (start [syncedSub] ())).2.sink = () :=
  ⟨by decide,
    noop_on_sync memC knownC webOwner scale3 [syncedSub] () syncedSub [] rfl (by decide)⟩

/-- C4 (not-found equivalence): two controllers that share every collaborator
except `List`, one whose `List` fails with a not-found error and one whose
`List` succeeds with no item (both leaving the same store state), produce the
same result and the same final pass state, trace of collaborator calls
included; both take the create path from the state after `List`, and an error
returned by the pass is one of `SetControllerReference` or `Create`, not the
not-found error of `List`. -/
theorem not_found_equivalence (c1 c2 : EffectiveHPAController σ τ) (k : Known)
    (ehpa : EffectiveHorizontalPodAutoscaler) (scale : Scale) (st st1 : σ) (sk : τ) (err : Err)
    (hr : c1.SetControllerReference = c2.SetControllerReference)
    (hc : c1.Client.Create = c2.Client.Create)
    (he : c1.Recorder = c2.Recorder)
    (hg : c1.Log = c2.Log)
    (h1 : c1.Client.List (uidOptions k ehpa) st = (.error err, st1))
    (hn : err.IsNotFound = true)
    (h2 : c2.Client.List (uidOptions k ehpa) st = (.ok [], st1)) :
    ReconcileSubstitute c1 k ehpa scale (start st sk)
      = ReconcileSubstitute c2 k ehpa scale (start st sk) ∧
    ReconcileSubstitute c1 k ehpa scale (start st sk)
      = CreateSubstitute c1 k ehpa scale ⟨st1, sk, [Call.list (uidOptions k ehpa)]⟩ ∧
    ReconcileSubstitute c2 k ehpa scale (start st sk)
      = CreateSubstitute c2 k ehpa scale ⟨st1, sk, [Call.list (uidOptions k ehpa)]⟩ ∧
    (∀ e, (ReconcileSubstitute c1 k ehpa scale (start st sk)).1 = .error e →
      failsAt c1 k ehpa scale st .reference e ∨ failsAt c1 k ehpa scale st .create e) := by
  have e1 := reconcile_absent c1 k ehpa scale (start st sk) (by simp [start, h1, absent, hn])
  have e2 := reconcile_absent c2 k ehpa scale (start st sk) (by simp [start, h2, absent])
  have hlast : ∀ e, (ReconcileSubstitute c1 k ehpa scale (start st sk)).1 = .error e →
      failsAt c1 k ehpa scale st .reference e ∨ failsAt c1 k ehpa scale st .create e := by
    intro e h
    rcases reconcile_cases c1 k ehpa scale (start st sk) with
      ⟨err, hl, hn2, hr⟩ | ⟨err, ha, hs, hr⟩ | ⟨refs, err, ha, hs, hcr, hr⟩ |
      ⟨refs, _, _, _, hr⟩ | ⟨E, rest, hl, _, hr⟩ | ⟨E, rest, err, hl, _, _, hr⟩ |
      ⟨E, rest, hl, _, _, hr⟩
    · simp only [start, h1, Except.error.injEq] at hl
      rw [← hl, hn] at hn2
      simp at hn2
    · rw [hr] at h
      simp only [Except.error.injEq] at h
      subst h
      exact Or.inl ⟨ha, hs⟩
    · rw [hr] at h
      simp only [Except.error.injEq] at h
      subst h
      exact Or.inr ⟨ha, refs, hs, hcr⟩
    · rw [hr] at h; simp at h
    · simp [start, h1] at hl
    · simp [start, h1] at hl
    · simp [start, h1] at hl
  simp only [clientList, start, h1, h2, List.nil_append] at e1 e2 ⊢
  refine ⟨?_, e1, e2, hlast⟩
  rw [e1, e2]
  simp [CreateSubstitute, NewSubstituteObject, setControllerReference, clientCreate,
    recorderEvent, logCall, hr, hc, he, hg]

/-- Witness of C4: a `List` that reports not-found against a `List` that
returns no item, with succeeding `SetControllerReference` and `Create`. -/
theorem not_found_equivalence_witness :
    ReconcileSubstitute (scripted (.error gone) (.ok ownerRefs) none none) knownC webOwner scale3
        (start () ())
      = ReconcileSubstitute (scripted (.ok []) (.ok ownerRefs) none none) knownC webOwner scale3
        (start () ()) ∧
    ReconcileSubstitute (scripted (.error gone) (.ok ownerRefs) none none) knownC webOwner scale3
        (start () ())
      = CreateSubstitute (scripted (.error gone) (.ok ownerRefs) none none) knownC webOwner scale3
        ⟨(), (), [Call.list (uidOptions knownC webOwner)]⟩ ∧
    ReconcileSubstitute (scripted (.ok []) (.ok ownerRefs) none none) knownC webOwner scale3
        (start () ())
      = CreateSubstitute (scripted (.ok []) (.ok ownerRefs) none none) knownC webOwner scale3
        ⟨(), (), [Call.list (uidOptions knownC webOwner)]⟩ :=
  ⟨(not_found_equivalence (scripted (.error gone) (.ok ownerRefs) none none)
      (scripted (.ok []) (.ok ownerRefs) none none) knownC webOwner scale3 () () () gone
      rfl rfl rfl rfl rfl rfl rfl).1,
   (not_found_equivalence (scripted (.error gone) (.ok ownerRefs) none none)
      (scripted (.ok []) (.ok ownerRefs) none none) knownC webOwner scale3 () () () gone
      rfl rfl rfl rfl rfl rfl rfl).2.1,
   (not_found_equivalence (scripted (.error gone) (.ok ownerRefs) none none)
      (scripted (.ok []) (.ok ownerRefs) none none) knownC webOwner scale3 () () () gone
      rfl rfl rfl rfl rfl rfl rfl).2.2.1⟩

/-- C6 (failures are surfaced unchanged and end the pass): if `List` fails with
an error that is not not-found, or `SetControllerReference` fails, or `Create`
fails, or `Update` fails, with error `e`, then the pass returns no Substitute
and exactly `e`; the calls of the pass are those of `failureTrace`, so the
failing call occurs once (no retry), only `Recorder.Event` and `Log.Error`
follow it (no store call after it), and a failing `SetControllerReference`
leaves the pass without any `Create`. -/
theorem failures_surface (c : EffectiveHPAController σ τ) (k : Known)
    (ehpa : EffectiveHorizontalPodAutoscaler) (scale : Scale) (st : σ) (sk : τ)
    (pt : FailurePoint) (e : Err) (h : failsAt c k ehpa scale st pt e) :
    (ReconcileSubstitute c k ehpa scale (start st sk)).1 = .error e ∧
    (ReconcileSubstitute c k ehpa scale (start st sk)).2.trace.map Call.kind = failureTrace pt ∧
    ((ReconcileSubstitute c k ehpa scale (start st sk)).2.trace.map Call.kind).count pt.kind
      = 1 ∧
    ((((ReconcileSubstitute c k ehpa scale (start st sk)).2.trace.map Call.kind).dropWhile
      (fun x => x != pt.kind)).tail.filter Kind.isStore) = [] ∧
    (pt = .reference →
      (ReconcileSubstitute c k ehpa scale (start st sk)).2.trace.filter Call.isCreate = []) := by
  have key : (ReconcileSubstitute c k ehpa scale (start st sk)).1 = .error e ∧
      (ReconcileSubstitute c k ehpa scale (start st sk)).2.trace.map Call.kind
        = failureTrace pt ∧
      (pt = .reference →
        (ReconcileSubstitute c k ehpa scale (start st sk)).2.trace.filter Call.isCreate
          = []) := by
    cases pt with
    | list =>
      obtain ⟨hl, hn⟩ := h
      rw [reconcile_list_failed c k ehpa scale (start st sk) e (by simpa [start] using hl) hn]
      simp [logCall, recorderEvent, clientList, start, Call.kind, failureTrace]
    | reference =>
      obtain ⟨ha, hs⟩ := h
      rw [reconcile_absent c k ehpa scale (start st sk) (by simpa [start] using ha),
        create_reference_failed c k ehpa scale _ e hs]
      simp [logCall, recorderEvent, setControllerReference, clientList, start, Call.kind,
        failureTrace, Call.isCreate]
    | create =>
      obtain ⟨ha, refs, hs, hc⟩ := h
      rw [reconcile_absent c k ehpa scale (start st sk) (by simpa [start] using ha),
        create_store_failed c k ehpa scale _ refs e hs (by simpa [clientList, start] using hc)]
      simp [logCall, recorderEvent, setControllerReference, clientCreate, clientList, start,
        Call.kind, failureTrace]
    | update =>
      obtain ⟨E, rest, hl, hd, hu⟩ := h
      rw [reconcile_present c k ehpa scale (start st sk) E rest (by simpa [start] using hl),
        update_failed c ehpa E scale _ e hd (by simpa [clientList, start] using hu)]
      simp [logCall, recorderEvent, clientUpdate, beforeUpdate, clientList, start, Call.kind,
        failureTrace]
  obtain ⟨h1, h2, h3⟩ := key
  refine ⟨h1, h2, ?_, ?_, h3⟩
  · rw [h2]; cases pt <;> decide
  · rw [h2]; cases pt <;> decide

/-- Witness of C6: one failing pass for each of the four failure points. -/
theorem failures_surface_witness :
    ((ReconcileSubstitute listFails knownC webOwner scale3 (start () ())).1 = .error boom ∧
      (ReconcileSubstitute listFails knownC webOwner scale3 (start () ())).2.trace.map Call.kind
        = [.list, .event, .logError]) ∧
    ((ReconcileSubstitute referenceFails knownC webOwner scale3 (start () ())).1
        = .error boom ∧
      (ReconcileSubstitute referenceFails knownC webOwner scale3 (start () ())).2.trace.map
        Call.kind = [.list, .setControllerReference, .event, .logError]) ∧
    ((ReconcileSubstitute createFails knownC webOwner scale3 (start () ())).1 = .error boom ∧
      (ReconcileSubstitute createFails knownC webOwner scale3 (start () ())).2.trace.map
        Call.kind = [.list, .setControllerReference, .create, .event, .logError]) ∧
    ((ReconcileSubstitute updateFails knownC webOwner scale3 (start () ())).1 = .error boom ∧
      (ReconcileSubstitute updateFails knownC webOwner scale3 (start () ())).2.trace.map
        Call.kind = [.list, .logInfo, .update, .event, .logError]) :=
  ⟨⟨(failures_surface listFails knownC webOwner scale3 () () .list boom ⟨rfl, rfl⟩).1,
     (failures_surface listFails knownC webOwner scale3 () () .list boom ⟨rfl, rfl⟩).2.1⟩,
   ⟨(failures_surface referenceFails knownC webOwner scale3 () () .reference boom
       ⟨rfl, rfl⟩).1,
     (failures_surface referenceFails knownC webOwner scale3 () () .reference boom
       ⟨rfl, rfl⟩).2.1⟩,
   ⟨(failures_surface createFails knownC webOwner scale3 () () .create boom
       ⟨rfl, ownerRefs, rfl, rfl⟩).1,
     (failures_surface createFails knownC webOwner scale3 () () .create boom
       ⟨rfl, ownerRefs, rfl, rfl⟩).2.1⟩,
   ⟨(failures_surface updateFails knownC webOwner scale3 () () .update boom
       ⟨staleSub, [syncedSub], rfl, by decide, rfl⟩).1,
     (failures_surface updateFails knownC webOwner scale3 () () .update boom
       ⟨staleSub, [syncedSub], rfl, by decide, rfl⟩).2.1⟩⟩

/-- C8 (one event and one error log on every failure): whenever the pass
returns an error `e`, its trace ends with the failing call (a `List`,
`SetControllerReference`, `Create` or `Update`), then one `Recorder.Event`
whose message is `e.Error()`, then one `Log.Error` carrying `e`; these are the
only `Recorder.Event` and the only `Log.Error` of the pass. -/
theorem failure_diagnostics (c : EffectiveHPAController σ τ) (k : Known)
    (ehpa : EffectiveHorizontalPodAutoscaler) (scale : Scale) (st : σ) (sk : τ) (e : Err)
    (h : (ReconcileSubstitute c k ehpa scale (start st sk)).1 = .error e) :
    ∃ (pre : List Call) (failing : Call) (reason msg : String) (kv : List (String × LogValue)),
      (ReconcileSubstitute c k ehpa scale (start st sk)).2.trace
        = pre ++ [failing, Call.event ⟨ehpa, EventTypeNormal, reason, e.Error⟩,
            Call.log (.error e msg kv)] ∧
      failing.kind ∈ [Kind.list, Kind.setControllerReference, Kind.create, Kind.update] ∧
      (ReconcileSubstitute c k ehpa scale (start st sk)).2.trace.filter Call.isEvent
        = [Call.event ⟨ehpa, EventTypeNormal, reason, e.Error⟩] ∧
      (ReconcileSubstitute c k ehpa scale (start st sk)).2.trace.filter Call.isLogError
        = [Call.log (.error e msg kv)] := by
  rcases reconcile_cases c k ehpa scale (start st sk) with
    ⟨err, _, _, hr⟩ | ⟨err, _, _, hr⟩ | ⟨refs, err, _, _, _, hr⟩ | ⟨refs, _, _, _, hr⟩ |
    ⟨E, rest, _, _, hr⟩ | ⟨E, rest, err, _, _, _, hr⟩ | ⟨E, rest, _, _, _, hr⟩
  · rw [hr] at h ⊢
    simp only [Except.error.injEq] at h
    subst h
    exact ⟨[], Call.list (uidOptions k ehpa), "FailedGetSubstitute",
      "Failed to get Substitute", [("ehpa", .kobj ehpa.Namespace ehpa.Name)],
      by simp [logCall, recorderEvent, afterList, clientList, start],
      by simp [Call.kind],
      by simp [logCall, recorderEvent, afterList, clientList, start, Call.isEvent],
      by simp [logCall, recorderEvent, afterList, clientList, start, Call.isLogError]⟩
  · rw [hr] at h ⊢
    simp only [Except.error.injEq] at h
    subst h
    exact ⟨[Call.list (uidOptions k ehpa)],
      Call.setControllerReference ehpa (substituteLiteral k ehpa scale),
      "FailedCreateSubstituteObject", "Failed to create object", [("Substitute", .sub none)],
      by simp [logCall, recorderEvent, setControllerReference, afterList, clientList, start],
      by simp [Call.kind],
      by simp [logCall, recorderEvent, setControllerReference, afterList, clientList, start,
        Call.isEvent],
      by simp [logCall, recorderEvent, setControllerReference, afterList, clientList, start,
        Call.isLogError]⟩
  · rw [hr] at h ⊢
    simp only [Except.error.injEq] at h
    subst h
    exact ⟨[Call.list (uidOptions k ehpa),
        Call.setControllerReference ehpa (substituteLiteral k ehpa scale)],
      Call.create (ownedSubstitute k ehpa scale refs), "FailedCreateSubstitute",
      "Failed to create", [("Substitute", .sub (some (ownedSubstitute k ehpa scale refs)))],
      by simp [logCall, recorderEvent, setControllerReference, clientCreate, afterList,
        clientList, start],
      by simp [Call.kind],
      by simp [logCall, recorderEvent, setControllerReference, clientCreate, afterList,
        clientList, start, Call.isEvent],
      by simp [logCall, recorderEvent, setControllerReference, clientCreate, afterList,
        clientList, start, Call.isLogError]⟩
  · rw [hr] at h
    simp at h
  · rw [hr] at h
    simp at h
  · rw [hr] at h ⊢
    simp only [Except.error.injEq] at h
    subst h
    exact ⟨(beforeUpdate c ehpa E (afterList c k ehpa (start st sk))).trace,
      Call.update (retargeted ehpa E), "FailedUpdateSubstitute",
      "Failed to update", [("Substitute", .sub (some (retargeted ehpa E)))],
      by simp [logCall, recorderEvent, clientUpdate, beforeUpdate, afterList, clientList, start],
      by simp [Call.kind],
      by simp [logCall, recorderEvent, clientUpdate, beforeUpdate, afterList, clientList, start,
        Call.isEvent],
      by simp [logCall, recorderEvent, clientUpdate, beforeUpdate, afterList, clientList, start,
        Call.isLogError]⟩
  · rw [hr] at h
    simp at h

/-- Witness of C8: a pass whose `Update` fails, after the informational log of
the divergence. -/
theorem failure_diagnostics_witness :
    ∃ (pre : List Call) (failing : Call) (reason msg : String) (kv : List (String × LogValue)),
      (ReconcileSubstitute updateFails knownC webOwner scale3 (start () ())).2.trace
        = pre ++ [failing, Call.event ⟨webOwner, EventTypeNormal, reason, boom.Error⟩,
            Call.log (.error boom msg kv)] ∧
      failing.kind ∈ [Kind.list, Kind.setControllerReference, Kind.create, Kind.update] ∧
      (ReconcileSubstitute updateFails knownC webOwner scale3 (start () ())).2.trace.filter
        Call.isEvent = [Call.event ⟨webOwner, EventTypeNormal, reason, boom.Error⟩] ∧
      (ReconcileSubstitute updateFails knownC webOwner scale3 (start () ())).2.trace.filter
        Call.isLogError = [Call.log (.error boom msg kv)] :=
  failure_diagnostics updateFails knownC webOwner scale3 () () boom rfl

/-- C9, as stated, fails: the pass over a store whose Substitute is already in
sync succeeds without any `Recorder.Event` and without any log record, and the
pass that updates a stale Substitute succeeds without any `Recorder.Event`. -/
theorem outcome_observability_counterexample :
    (ReconcileSubstitute memC knownC webOwner scale3 (start [syncedSub] ())).1 = .ok syncedSub ∧
    (ReconcileSubstitute memC knownC webOwner scale3 (start [syncedSub] ())).2.trace.filter
      Call.isEvent = [] ∧
    (ReconcileSubstitute memC knownC webOwner scale3 (start [syncedSub] ())).2.trace.filter
      Call.isLog = [] ∧
    (ReconcileSubstitute memC knownC webOwner scale3 (start [staleSub] ())).1
      = .ok (retargeted webOwner staleSub) ∧
    (ReconcileSubstitute memC knownC webOwner scale3 (start [staleSub] ())).2.trace.filter
      Call.isEvent = [] :=
  ⟨rfl, by decide, by decide, rfl, by decide⟩

/-- C9 (amended): a failing pass and a pass that creates the Substitute emit
exactly one `Recorder.Event` and at least one log record; a pass that finds a
Substitute and succeeds emits no `Recorder.Event`, and emits log records (two)
only when it updated the target, none when the Substitute was in sync; and the
result, the final store state and the trace of the pass are the same whatever
the recorder and the logger do. -/
theorem outcome_observability {τ' : Type} (c : EffectiveHPAController σ τ) (k : Known)
    (ehpa : EffectiveHorizontalPodAutoscaler) (scale : Scale) (st : σ) (sk : τ)
    (recorder : EventRec → τ' → τ') (log : LogRec → τ' → τ') (sk' : τ') :
    (∀ e, (ReconcileSubstitute c k ehpa scale (start st sk)).1 = .error e →
      ((ReconcileSubstitute c k ehpa scale (start st sk)).2.trace.filter Call.isEvent).length
        = 1 ∧
      1 ≤ ((ReconcileSubstitute c k ehpa scale (start st sk)).2.trace.filter
        Call.isLog).length) ∧
    (∀ sub, (ReconcileSubstitute c k ehpa scale (start st sk)).1 = .ok sub →
      absent (c.Client.List (uidOptions k ehpa) st).1 = true →
      ((ReconcileSubstitute c k ehpa scale (start st sk)).2.trace.filter Call.isEvent).length
        = 1 ∧
      ((ReconcileSubstitute c k ehpa scale (start st sk)).2.trace.filter Call.isLog).length
        = 1) ∧
    (∀ sub E rest, (ReconcileSubstitute c k ehpa scale (start st sk)).1 = .ok sub →
      (c.Client.List (uidOptions k ehpa) st).1 = .ok (E :: rest) →
      (ReconcileSubstitute c k ehpa scale (start st sk)).2.trace.filter Call.isEvent = [] ∧
      ((ReconcileSubstitute c k ehpa scale (start st sk)).2.trace.filter Call.isLog).length
        = if E.Spec.SubstituteTargetRef = ehpa.Spec.ScaleTargetRef then 0 else 2) ∧
    (ReconcileSubstitute (withSinks c recorder log) k ehpa scale (start st sk')).1
      = (ReconcileSubstitute c k ehpa scale (start st sk)).1 ∧
    (ReconcileSubstitute (withSinks c recorder log) k ehpa scale (start st sk')).2.store
      = (ReconcileSubstitute c k ehpa scale (start st sk)).2.store ∧
    (ReconcileSubstitute (withSinks c recorder log) k ehpa scale (start st sk')).2.trace
      = (ReconcileSubstitute c k ehpa scale (start st sk)).2.trace := by
  refine ⟨?_, ?_, ?_, sink_independent c k ehpa scale st sk recorder log sk'⟩
  · intro e h
    rcases reconcile_cases c k ehpa scale (start st sk) with
      ⟨err, _, _, hr⟩ | ⟨err, _, _, hr⟩ | ⟨refs, err, _, _, _, hr⟩ | ⟨refs, _, _, _, hr⟩ |
      ⟨E, rest, _, _, hr⟩ | ⟨E, rest, err, _, _, _, hr⟩ | ⟨E, rest, _, _, _, hr⟩ <;>
    rw [hr] at h ⊢ <;>
    simp [logCall, recorderEvent, setControllerReference, clientCreate, clientUpdate,
      beforeUpdate, afterList, clientList, start, Call.isEvent, Call.isLog] at h ⊢
  · intro sub h ha
    rcases reconcile_cases c k ehpa scale (start st sk) with
      ⟨err, hl, hn, hr⟩ | ⟨err, _, _, hr⟩ | ⟨refs, err, _, _, _, hr⟩ | ⟨refs, _, _, _, hr⟩ |
      ⟨E, rest, hl, _, hr⟩ | ⟨E, rest, err, hl, _, _, hr⟩ | ⟨E, rest, hl, _, _, hr⟩
    · rw [hr] at h; simp at h
    · rw [hr] at h; simp at h
    · rw [hr] at h; simp at h
    · rw [hr]
      simp [logCall, recorderEvent, setControllerReference, clientCreate, afterList, clientList,
        start, Call.isEvent, Call.isLog]
    · simp only [start] at hl; rw [hl] at ha; simp [absent] at ha
    · simp only [start] at hl; rw [hl] at ha; simp [absent] at ha
    · simp only [start] at hl; rw [hl] at ha; simp [absent] at ha
  · intro sub E0 rest0 h hl0
    rcases reconcile_cases c k ehpa scale (start st sk) with
      ⟨err, hl, hn, hr⟩ | ⟨err, ha, _, hr⟩ | ⟨refs, err, ha, _, _, hr⟩ | ⟨refs, ha, _, _, hr⟩ |
      ⟨E, rest, hl, hs, hr⟩ | ⟨E, rest, err, hl, hs, _, hr⟩ | ⟨E, rest, hl, hs, _, hr⟩
    · rw [hr] at h; simp at h
    · rw [hr] at h; simp at h
    · rw [hr] at h; simp at h
    · simp only [start] at ha; rw [hl0] at ha; simp [absent] at ha
    · simp only [start] at hl
      rw [hl0] at hl
      simp only [Except.ok.injEq, List.cons.injEq] at hl
      obtain ⟨rfl, -⟩ := hl
      rw [hr]
      simp [afterList, clientList, start, Call.isEvent, Call.isLog, hs]
    · rw [hr] at h; simp at h
    · simp only [start] at hl
      rw [hl0] at hl
      simp only [Except.ok.injEq, List.cons.injEq] at hl
      obtain ⟨rfl, -⟩ := hl
      rw [hr]
      simp [logCall, clientUpdate, beforeUpdate, afterList, clientList, start, Call.isEvent,
        Call.isLog, hs]

/-- Witness of C9 (amended): the successful update over the in-memory store,
observed with a sink that keeps the reasons of the events and nothing of the
logs. -/
theorem outcome_observability_witness :
    (ReconcileSubstitute memC knownC webOwner scale3 (start [staleSub] ())).2.trace.filter
      Call.isEvent = [] ∧
    ((ReconcileSubstitute memC knownC webOwner scale3 (start [staleSub] ())).2.trace.filter
      Call.isLog).length = 2 ∧
    (ReconcileSubstitute (withSinks memC (fun e (l : List String) => e.reason :: l)
        (fun _ l => l)) knownC webOwner scale3 (start [staleSub] [])).1
      = (ReconcileSubstitute memC knownC webOwner scale3 (start [staleSub] ())).1 :=
  ⟨((outcome_observability memC knownC webOwner scale3 [staleSub] ()
      (fun e (l : List String) => e.reason :: l) (fun _ l => l) []).2.2.1
      (retargeted webOwner staleSub) staleSub [] rfl rfl).1,
   ((outcome_observability memC knownC webOwner scale3 [staleSub] ()
      (fun e (l : List String) => e.reason :: l) (fun _ l => l) []).2.2.1
      (retargeted webOwner staleSub) staleSub [] rfl rfl).2,
   (outcome_observability memC knownC webOwner scale3 [staleSub] ()
      (fun e (l : List String) => e.reason :: l) (fun _ l => l) []).2.2.2.1⟩

/-- C10 (first match wins): when `List` succeeds with a non-empty list, the
pass is the diff-and-update of its first item alone, run from the state that
`List` left: the later items occur nowhere in it. The pass issues no `Create`;
it issues at most one `Update`, on the first item with the owner's target, and
none when the first item is in sync; the only error it can return is the one
of that `Update`; and a returned Substitute is the first item, carrying the
owner's target. -/
theorem first_match_wins (c : EffectiveHPAController σ τ) (k : Known)
    (ehpa : EffectiveHorizontalPodAutoscaler) (scale : Scale) (st : σ) (sk : τ)
    (first : Substitute) (rest : List Substitute)
    (hl : (c.Client.List (uidOptions k ehpa) st).1 = .ok (first :: rest)) :
    ReconcileSubstitute c k ehpa scale (start st sk)
      = UpdateSubstituteIfNeed c ehpa first scale
          ⟨(c.Client.List (uidOptions k ehpa) st).2, sk, [Call.list (uidOptions k ehpa)]⟩ ∧
    (ReconcileSubstitute c k ehpa scale (start st sk)).2.trace.filter Call.isCreate = [] ∧
    (ReconcileSubstitute c k ehpa scale (start st sk)).2.trace.filter Call.isUpdate
      = (if first.Spec.SubstituteTargetRef = ehpa.Spec.ScaleTargetRef then []
          else [Call.update (retargeted ehpa first)]) ∧
    (∀ e, (ReconcileSubstitute c k ehpa scale (start st sk)).1 = .error e →
      first.Spec.SubstituteTargetRef ≠ ehpa.Spec.ScaleTargetRef ∧
      (c.Client.Update (retargeted ehpa first) (c.Client.List (uidOptions k ehpa) st).2).1
        = some e) ∧
    (∀ sub, (ReconcileSubstitute c k ehpa scale (start st sk)).1 = .ok sub →
      sub = retargeted ehpa first ∧
      (first.Spec.SubstituteTargetRef = ehpa.Spec.ScaleTargetRef → sub = first)) := by
  have hp := reconcile_present c k ehpa scale (start st sk) first rest
    (by simpa [start] using hl)
  refine ⟨by simpa [clientList, start] using hp, ?_⟩
  rw [hp]
  by_cases hs : first.Spec.SubstituteTargetRef = ehpa.Spec.ScaleTargetRef
  · rw [update_synced c ehpa first scale _ hs]
    have hfix : retargeted ehpa first = first := by
      cases first with
      | mk om spec =>
        cases spec
        simp only [retargeted] at hs ⊢
        simp [hs]
    simp [clientList, start, Call.isCreate, Call.isUpdate, hs, hfix]
  · rcases hu : (c.Client.Update (retargeted ehpa first)
        (clientList c (uidOptions k ehpa) (start st sk)).2.store).1 with _ | err
    · rw [update_succeeded c ehpa first scale _ hs hu]
      simp [logCall, clientUpdate, beforeUpdate, clientList, start, Call.isCreate,
        Call.isUpdate, hs]
    · rw [update_failed c ehpa first scale _ err hs hu]
      have hu2 : (c.Client.Update (retargeted ehpa first)
          (c.Client.List (uidOptions k ehpa) st).2).1 = some err := by
        simpa [clientList, start] using hu
      simp [logCall, recorderEvent, clientUpdate, beforeUpdate, clientList, start,
        Call.isCreate, Call.isUpdate, hs, hu2]

/-- Witness of C10: a stale Substitute listed before a second match. -/
theorem first_match_wins_witness :
    ReconcileSubstitute memC knownC webOwner scale3 (start [staleSub, syncedSub] ())
      = UpdateSubstituteIfNeed memC webOwner staleSub scale3
          ⟨[staleSub, syncedSub], (), [Call.list (uidOptions knownC webOwner)]⟩ ∧
    (ReconcileSubstitute memC knownC webOwner scale3
      (start [staleSub, syncedSub] ())).2.trace.filter Call.isCreate = [] ∧
    (ReconcileSubstitute memC knownC webOwner scale3
      (start [staleSub, syncedSub] ())).2.trace.filter Call.isUpdate
      = [Call.update (retargeted webOwner staleSub)] :=
  ⟨(first_match_wins memC knownC webOwner scale3 [staleSub, syncedSub] () staleSub [syncedSub]
      rfl).1,
   (first_match_wins memC knownC webOwner scale3 [staleSub, syncedSub] () staleSub [syncedSub]
      rfl).2.1,
   (first_match_wins memC knownC webOwner scale3 [staleSub, syncedSub] () staleSub [syncedSub]
      rfl).2.2.1⟩

/-- C5 (idempotence): over the in-memory store, after one successful pass for
owner `O` and scale `s`, every further pass for the same `O` and `s` (the pass
that follows `n` further ones, for every `n`) returns a Substitute whose target
reference is the owner's, issues no `Create` and no `Update`, and leaves the
store as the first pass left it. -/
theorem idempotence (setRef : EffectiveHorizontalPodAutoscaler → Substitute →
      Except Err (List OwnerReference))
    (recorder : EventRec → τ → τ) (log : LogRec → τ → τ) (k : Known)
    (ehpa : EffectiveHorizontalPodAutoscaler) (scale : Scale) (st : List Substitute) (sk : τ)
    (sub : Substitute) (n : Nat)
    (h : (ReconcileSubstitute (storeController setRef recorder log) k ehpa scale
      (start st sk)).1 = .ok sub) :
    ∃ sub' : Substitute,
      (furtherPass (storeController setRef recorder log) k ehpa scale n
        (ReconcileSubstitute (storeController setRef recorder log) k ehpa scale
          (start st sk)).2).1 = .ok sub' ∧
      sub'.Spec.SubstituteTargetRef = ehpa.Spec.ScaleTargetRef ∧
      (furtherPass (storeController setRef recorder log) k ehpa scale n
        (ReconcileSubstitute (storeController setRef recorder log) k ehpa scale
          (start st sk)).2).2.trace.filter Call.isCreate = [] ∧
      (furtherPass (storeController setRef recorder log) k ehpa scale n
        (ReconcileSubstitute (storeController setRef recorder log) k ehpa scale
          (start st sk)).2).2.trace.filter Call.isUpdate = [] ∧
      (furtherPass (storeController setRef recorder log) k ehpa scale n
        (ReconcileSubstitute (storeController setRef recorder log) k ehpa scale
          (start st sk)).2).2.store
        = (ReconcileSubstitute (storeController setRef recorder log) k ehpa scale
            (start st sk)).2.store := by
  have hset := pass_settles setRef recorder log k ehpa scale st sk sub h
  have hst := further_store setRef recorder log k ehpa scale _ hset n
    (ReconcileSubstitute (storeController setRef recorder log) k ehpa scale (start st sk)).2 rfl
  unfold furtherPass
  rw [hst]
  obtain ⟨E, hE, hT⟩ := settled_pass setRef recorder log k ehpa scale _
    (further (storeController setRef recorder log) k ehpa scale n
      (ReconcileSubstitute (storeController setRef recorder log) k ehpa scale
        (start st sk)).2).sink hset
  rw [hE]
  exact ⟨E, rfl, hT, by simp [Call.isCreate], by simp [Call.isUpdate], rfl⟩

/-- Witness of C5: the first pass updates a stale Substitute; the pass after
two further ones changes nothing. -/
theorem idempotence_witness :
    ∃ sub' : Substitute,
      (furtherPass memC knownC webOwner scale3 2
        (ReconcileSubstitute memC knownC webOwner scale3 (start [staleSub] ())).2).1
        = .ok sub' ∧
      sub'.Spec.SubstituteTargetRef = webOwner.Spec.ScaleTargetRef ∧
      (furtherPass memC knownC webOwner scale3 2
        (ReconcileSubstitute memC knownC webOwner scale3 (start [staleSub] ())).2
        ).2.trace.filter Call.isCreate = [] ∧
      (furtherPass memC knownC webOwner scale3 2
        (ReconcileSubstitute memC knownC webOwner scale3 (start [staleSub] ())).2
        ).2.trace.filter Call.isUpdate = [] ∧
      (furtherPass memC knownC webOwner scale3 2
        (ReconcileSubstitute memC knownC webOwner scale3 (start [staleSub] ())).2).2.store
        = (ReconcileSubstitute memC knownC webOwner scale3 (start [staleSub] ())).2.store :=
  idempotence okRef (fun _ u => u) (fun _ u => u) knownC webOwner scale3 [staleSub] ()
    (retargeted webOwner staleSub) 2 rfl

/-- C7, as stated, fails: the `List` call of the pass for an owner in `ns1`
carries the UID label selector and no namespace option, and over the in-memory
store the Substitute resolved is one stored in `ns2`. -/
theorem namespace_scope_counterexample :
    (ReconcileSubstitute memC knownC webOwner scale3 (start [foreignSub] ())).2.trace
      = [Call.list [ListOption.MatchingLabels [("autoscaling.crane.io/effective-hpa-uid", "abc")]]] ∧
    (ReconcileSubstitute memC knownC webOwner scale3 (start [foreignSub] ())).1
      = .ok foreignSub ∧
    webOwner.Namespace = "ns1" ∧
    foreignSub.Namespace = "ns2" :=
  ⟨by decide, rfl, rfl, rfl⟩

/-- C7 (amended): the pass issues exactly one `List` call, it is the first
call of the pass, and its only option selects the objects whose UID label
equals the owner's UID, without any namespace option; over the in-memory store
that query returns every stored Substitute with that label, whatever its
namespace. -/
theorem lookup_by_uid_label (c : EffectiveHPAController σ τ) (k : Known)
    (ehpa : EffectiveHorizontalPodAutoscaler) (scale : Scale) (st : σ) (sk : τ)
    (stored : List Substitute) :
    (ReconcileSubstitute c k ehpa scale (start st sk)).2.trace.head?
      = some (Call.list
          [ListOption.MatchingLabels [(k.EffectiveHorizontalPodAutoscalerUidLabel, ehpa.UID)]]) ∧
    (ReconcileSubstitute c k ehpa scale (start st sk)).2.trace.filter Call.isList
      = [Call.list
          [ListOption.MatchingLabels [(k.EffectiveHorizontalPodAutoscalerUidLabel, ehpa.UID)]]] ∧
    storeList
        [ListOption.MatchingLabels [(k.EffectiveHorizontalPodAutoscalerUidLabel, ehpa.UID)]]
        stored
      = (.ok (stored.filter (fun s =>
          labelGet s.Labels k.EffectiveHorizontalPodAutoscalerUidLabel == some ehpa.UID)),
        stored) := by
  refine ⟨?_, ?_, ?_⟩
  · rcases reconcile_cases c k ehpa scale (start st sk) with
      ⟨err, _, _, hr⟩ | ⟨err, _, _, hr⟩ | ⟨refs, err, _, _, _, hr⟩ | ⟨refs, _, _, _, hr⟩ |
      ⟨E, rest, _, _, hr⟩ | ⟨E, rest, err, _, _, _, hr⟩ | ⟨E, rest, _, _, _, hr⟩ <;>
    rw [hr] <;>
    simp [logCall, recorderEvent, setControllerReference, clientCreate, clientUpdate,
      beforeUpdate, afterList, clientList, start, uidOptions, labelSet]
  · rcases reconcile_cases c k ehpa scale (start st sk) with
      ⟨err, _, _, hr⟩ | ⟨err, _, _, hr⟩ | ⟨refs, err, _, _, _, hr⟩ | ⟨refs, _, _, _, hr⟩ |
      ⟨E, rest, _, _, hr⟩ | ⟨E, rest, err, _, _, _, hr⟩ | ⟨E, rest, _, _, _, hr⟩ <;>
    rw [hr] <;>
    simp [logCall, recorderEvent, setControllerReference, clientCreate, clientUpdate,
      beforeUpdate, afterList, clientList, start, uidOptions, labelSet, Call.isList]
  · simp [storeList, matchesOption]

end Ehpa
